import Mathlib

/-!
Shallow embedding of the SGP4/SDP4 propagation core of the satellite
repository (src/propagation/{initl,dpper,dsinit,dspace,sgp4,sgp4init,gstime}.rs
and the SatRec record of src/lib.rs).  Every f64 of the source is embedded as
a real number; Rust's remainder operator on f64 is embedded as rfmod below
(truncated division, sign of the dividend), f64::atan2 as Complex.arg,
f64::powf as the real power Real.rpow.
-/

namespace Satellite

noncomputable section

open Real

/-- Truncation toward zero, as performed by the quotient underlying Rust's
f64 remainder operator. -/
def rtrunc (x : ℝ) : ℝ := if 0 ≤ x then (⌊x⌋ : ℤ) else (⌈x⌉ : ℤ)

/-- Rust's f64 remainder operator x % y: remainder of truncated division,
with the sign of the dividend. -/
def rfmod (x y : ℝ) : ℝ := x - y * rtrunc (x / y)

/-- f64::atan2(y, x): the argument of the complex number x + y i, in
the half-open interval (-pi, pi]. -/
def atan2 (y x : ℝ) : ℝ := Complex.arg ⟨x, y⟩

theorem rtrunc_zero : rtrunc 0 = 0 := by simp [rtrunc]

theorem rfmod_zero (y : ℝ) : rfmod 0 y = 0 := by simp [rfmod, rtrunc_zero]

/-- A dividend already lying in [0, y) is its own remainder. -/
theorem rfmod_of_nonneg_of_lt {x y : ℝ} (hx : 0 ≤ x) (hy : 0 < y) (h : x < y) :
    rfmod x y = x := by
  have h0 : 0 ≤ x / y := div_nonneg hx hy.le
  have h1 : x / y < 1 := (div_lt_one hy).mpr h
  have : (⌊x / y⌋ : ℤ) = 0 := Int.floor_eq_zero_iff.mpr ⟨h0, h1⟩
  simp [rfmod, rtrunc, if_pos h0, this]

/-- A dividend in (-y, 0] is its own remainder (the remainder keeps the
dividend's sign). -/
theorem rfmod_of_neg_of_lt {x y : ℝ} (hx : x < 0) (hy : 0 < y) (h : -y < x) :
    rfmod x y = x := by
  have h0 : ¬ (0 ≤ x / y) := by
    simp only [not_le]
    exact div_neg_of_neg_of_pos hx hy
  have h1 : (-1 : ℝ) < x / y := by
    rw [neg_lt, ← neg_div]
    calc -x / y < y / y := by
          rw [div_lt_div_iff_of_pos_right hy]
          linarith
      _ = 1 := div_self hy.ne'
  have h2 : x / y < 0 := div_neg_of_neg_of_pos hx hy
  have : (⌈x / y⌉ : ℤ) = 0 := by
    rw [Int.ceil_eq_zero_iff]
    constructor <;> [linarith; linarith]
  simp [rfmod, rtrunc, if_neg h0, this]

theorem atan2_zero_zero : atan2 0 0 = 0 := by
  have : (⟨0, 0⟩ : ℂ) = 0 := by
    apply Complex.ext <;> simp
  simp [atan2, this, Complex.arg_zero]

/-! ### Physical constants (src/constants.rs) -/

def PI : ℝ := Real.pi
def TWO_PI : ℝ := PI * 2
def DEG2RAD : ℝ := PI / 180
def MU : ℝ := 398600.8
def EARTH_RADIUS : ℝ := 6378.135
def XKE : ℝ := 0.07436691613317342
def VKMPERSEC : ℝ := EARTH_RADIUS * XKE / 60
def TUMIN : ℝ := 1 / XKE
def J2 : ℝ := 0.001082616
def J3 : ℝ := -0.00000253881
def J4 : ℝ := -0.00000165597
def J3OJ2 : ℝ := J3 / J2
def X2O3 : ℝ := 2 / 3

/-! ### Data model (src/lib.rs) -/

/-- Cartesian position or velocity vector. -/
structure Vector3 where
  x : ℝ
  y : ℝ
  z : ℝ
deriving DecidableEq

/-- Operation mode: AFSPC legacy ('a'), improved ('i'), or unset. -/
inductive DpperOpsMode where
  | A
  | I
  | NONE
deriving DecidableEq, Repr

/-- Whether dpper is called during initialization ('y') or propagation ('n'). -/
inductive DpperInit where
  | Y
  | N
deriving DecidableEq, Repr

/-- Satellite record containing description of orbit (struct SatRec of
src/lib.rs).  The satnum string identifier is omitted: it never enters the
numerical propagation. -/
structure SatRec where
  -- near earth variables
  isimp : ℕ
  method : Char
  aycof : ℝ
  con41 : ℝ
  cc1 : ℝ
  cc4 : ℝ
  cc5 : ℝ
  d2 : ℝ
  d3 : ℝ
  d4 : ℝ
  delmo : ℝ
  eta : ℝ
  argpdot : ℝ
  omgcof : ℝ
  sinmao : ℝ
  epochyr : ℕ
  t : ℝ
  t2cof : ℝ
  t3cof : ℝ
  t4cof : ℝ
  t5cof : ℝ
  x1mth2 : ℝ
  x7thm1 : ℝ
  mdot : ℝ
  nddot : ℝ
  ndot : ℝ
  nodedot : ℝ
  xlcof : ℝ
  xmcof : ℝ
  nodecf : ℝ
  jdsatepoch : ℝ
  -- deep space variables
  irez : ℕ
  d2201 : ℝ
  d2211 : ℝ
  d3210 : ℝ
  d3222 : ℝ
  d4410 : ℝ
  d4422 : ℝ
  d5220 : ℝ
  d5232 : ℝ
  d5421 : ℝ
  d5433 : ℝ
  dedt : ℝ
  del1 : ℝ
  del2 : ℝ
  del3 : ℝ
  didt : ℝ
  dmdt : ℝ
  dnodt : ℝ
  domdt : ℝ
  e3 : ℝ
  ee2 : ℝ
  peo : ℝ
  pgho : ℝ
  pho : ℝ
  pinco : ℝ
  plo : ℝ
  se2 : ℝ
  se3 : ℝ
  sgh2 : ℝ
  sgh3 : ℝ
  sgh4 : ℝ
  sh2 : ℝ
  sh3 : ℝ
  si2 : ℝ
  si3 : ℝ
  sl2 : ℝ
  sl3 : ℝ
  sl4 : ℝ
  gsto : ℝ
  xfact : ℝ
  xgh2 : ℝ
  xgh3 : ℝ
  xgh4 : ℝ
  xh3 : ℝ
  xi2 : ℝ
  xh2 : ℝ
  xi3 : ℝ
  xl2 : ℝ
  xlamo : ℝ
  xl3 : ℝ
  xl4 : ℝ
  zmol : ℝ
  zmos : ℝ
  xni : ℝ
  atime : ℝ
  xli : ℝ
  epochdays : ℝ
  bstar : ℝ
  ecco : ℝ
  argpo : ℝ
  inclo : ℝ
  mo : ℝ
  no : ℝ
  nodeo : ℝ
  operationmode : DpperOpsMode
  init : DpperInit
  a : ℝ
  alta : ℝ
  altp : ℝ
  error : ℕ

/-! ### gstime (src/propagation/gstime.rs) -/

/-- Greenwich sidereal time from a Julian date (function gstime_internal). -/
def gstime (jdut1 : ℝ) : ℝ :=
  let tut1 := (jdut1 - 2451545.0) / 36525.0
  let temp := (-6.2e-6 * tut1 * tut1 * tut1) + (0.093104 * tut1 * tut1) +
    (((876600.0 * 3600.0) + 8640184.812866) * tut1) + 67310.54841
  let temp := rfmod ((temp * DEG2RAD) / 240.0) TWO_PI
  if temp < 0 then temp + TWO_PI else temp

/-! ### initl (src/propagation/initl.rs) -/

structure InitOptions where
  ecco : ℝ
  epoch : ℝ
  inclo : ℝ
  opsmode : DpperOpsMode
  no : ℝ

inductive InitlMethod where
  | N
  | D
deriving DecidableEq, Repr

structure InitlResult where
  no : ℝ
  method : InitlMethod
  ainv : ℝ
  ao : ℝ
  con41 : ℝ
  con42 : ℝ
  cosio : ℝ
  cosio2 : ℝ
  eccsq : ℝ
  omeosq : ℝ
  posq : ℝ
  rp : ℝ
  rteosq : ℝ
  sinio : ℝ
  gsto : ℝ

/-- Auxiliary epoch quantities and the two-step un-Kozai of the mean motion
(function initl). -/
def initl (options : InitOptions) : InitlResult :=
  let ecco := options.ecco
  let epoch := options.epoch
  let inclo := options.inclo
  let opsmode := options.opsmode
  let no := options.no
  let eccsq := ecco * ecco
  let omeosq := 1.0 - eccsq
  let rteosq := Real.sqrt omeosq
  let cosio := Real.cos inclo
  let cosio2 := cosio * cosio
  -- un-kozai the mean motion
  let ak := (XKE / no) ^ (X2O3 : ℝ)
  let d1 := (0.75 * J2 * ((3.0 * cosio2) - 1.0)) / (rteosq * omeosq)
  let del_prime := d1 / (ak * ak)
  let adel := ak * (1.0 - (del_prime * del_prime) -
    (del_prime * ((1.0 / 3.0) + ((134.0 * del_prime * del_prime) / 81.0))))
  let del_prime := d1 / (adel * adel)
  let no := no / (1.0 + del_prime)
  let ao := (XKE / no) ^ (X2O3 : ℝ)
  let sinio := Real.sin inclo
  let po := ao * omeosq
  let con42 := 1.0 - (5.0 * cosio2)
  let con41 := -con42 - cosio2 - cosio2
  let ainv := 1.0 / ao
  let posq := po * po
  let rp := ao * (1.0 - ecco)
  let method := InitlMethod.N
  let gsto :=
    if opsmode = DpperOpsMode.A then
      -- count integer number of days from 0 jan 1970
      let ts70 := epoch - 7305.0
      let ds70 := ((⌊ts70 + 1.0e-8⌋ : ℤ) : ℝ)
      let tfrac := ts70 - ds70
      -- find greenwich location at epoch
      let c1 := 1.72027916940703639e-2
      let thgr70 := 1.7321343856509374
      let fk5r := 5.07551419432269442e-15
      let c1p2p := c1 + TWO_PI
      let gsto := rfmod (thgr70 + (c1 * ds70) + (c1p2p * tfrac) + (ts70 * ts70 * fk5r)) TWO_PI
      if gsto < 0 then gsto + TWO_PI else gsto
    else gstime (epoch + 2433281.5)
  { no, method, ainv, ao, con41, con42, cosio, cosio2, eccsq, omeosq, posq,
    rp, rteosq, sinio, gsto }

/-! ### dscom -/

structure DscomOption where
  epoch : ℝ
  ep : ℝ
  argpp : ℝ
  tc : ℝ
  inclp : ℝ
  nodep : ℝ
  np : ℝ

structure DscomResult where
  snodm : ℝ
  cnodm : ℝ
  sinim : ℝ
  cosim : ℝ
  sinomm : ℝ
  cosomm : ℝ
  day : ℝ
  e3 : ℝ
  ee2 : ℝ
  em : ℝ
  emsq : ℝ
  gam : ℝ
  peo : ℝ
  pgho : ℝ
  pho : ℝ
  pinco : ℝ
  plo : ℝ
  rtemsq : ℝ
  se2 : ℝ
  se3 : ℝ
  sgh2 : ℝ
  sgh3 : ℝ
  sgh4 : ℝ
  sh2 : ℝ
  sh3 : ℝ
  si2 : ℝ
  si3 : ℝ
  sl2 : ℝ
  sl3 : ℝ
  sl4 : ℝ
  s1 : ℝ
  s2 : ℝ
  s3 : ℝ
  s4 : ℝ
  s5 : ℝ
  s6 : ℝ
  s7 : ℝ
  ss1 : ℝ
  ss2 : ℝ
  ss3 : ℝ
  ss4 : ℝ
  ss5 : ℝ
  ss6 : ℝ
  ss7 : ℝ
  sz1 : ℝ
  sz2 : ℝ
  sz3 : ℝ
  sz11 : ℝ
  sz12 : ℝ
  sz13 : ℝ
  sz21 : ℝ
  sz22 : ℝ
  sz23 : ℝ
  sz31 : ℝ
  sz32 : ℝ
  sz33 : ℝ
  xgh2 : ℝ
  xgh3 : ℝ
  xgh4 : ℝ
  xh2 : ℝ
  xh3 : ℝ
  xi2 : ℝ
  xi3 : ℝ
  xl2 : ℝ
  xl3 : ℝ
  xl4 : ℝ
  nm : ℝ
  z1 : ℝ
  z2 : ℝ
  z3 : ℝ
  z11 : ℝ
  z12 : ℝ
  z13 : ℝ
  z21 : ℝ
  z22 : ℝ
  z23 : ℝ
  z31 : ℝ
  z32 : ℝ
  z33 : ℝ
  zmol : ℝ
  zmos : ℝ

/-- Modelled from the spec: the source file src/propagation/dscom.rs is not
present in the repository snapshot (only its caller sgp4init is).  Spec §4.2
gives the zmos expansion, that tc = 0 during initialization, and that the
remaining lunar/solar series coefficients are functions of the epoch elements
alone; it gives no formula for them, so every output whose formula the spec
does not state is modelled as zero (the trigonometric caches and element
copies are the evident pass-throughs).  No theorem below depends on the
numerical value of any dscom output. -/
def dscom (options : DscomOption) : DscomResult :=
  let day := options.epoch + 18261.5 + (options.tc / 1440.0)
  let zmos := rfmod (6.2565837 + (0.017201977 * day)) TWO_PI
  { snodm := Real.sin options.nodep
    cnodm := Real.cos options.nodep
    sinim := Real.sin options.inclp
    cosim := Real.cos options.inclp
    sinomm := Real.sin options.argpp
    cosomm := Real.cos options.argpp
    day
    e3 := 0
    ee2 := 0
    em := options.ep
    emsq := options.ep * options.ep
    gam := 0
    peo := 0
    pgho := 0
    pho := 0
    pinco := 0
    plo := 0
    rtemsq := Real.sqrt (1.0 - options.ep * options.ep)
    se2 := 0
    se3 := 0
    sgh2 := 0
    sgh3 := 0
    sgh4 := 0
    sh2 := 0
    sh3 := 0
    si2 := 0
    si3 := 0
    sl2 := 0
    sl3 := 0
    sl4 := 0
    s1 := 0
    s2 := 0
    s3 := 0
    s4 := 0
    s5 := 0
    s6 := 0
    s7 := 0
    ss1 := 0
    ss2 := 0
    ss3 := 0
    ss4 := 0
    ss5 := 0
    ss6 := 0
    ss7 := 0
    sz1 := 0
    sz2 := 0
    sz3 := 0
    sz11 := 0
    sz12 := 0
    sz13 := 0
    sz21 := 0
    sz22 := 0
    sz23 := 0
    sz31 := 0
    sz32 := 0
    sz33 := 0
    xgh2 := 0
    xgh3 := 0
    xgh4 := 0
    xh2 := 0
    xh3 := 0
    xi2 := 0
    xi3 := 0
    xl2 := 0
    xl3 := 0
    xl4 := 0
    nm := options.np
    z1 := 0
    z2 := 0
    z3 := 0
    z11 := 0
    z12 := 0
    z13 := 0
    z21 := 0
    z22 := 0
    z23 := 0
    z31 := 0
    z32 := 0
    z33 := 0
    zmol := 0
    zmos }

/-! ### dpper (src/propagation/dpper.rs) -/

structure DpperOption where
  init : DpperInit
  opsmode : DpperOpsMode
  ep : ℝ
  inclp : ℝ
  nodep : ℝ
  argpp : ℝ
  mp : ℝ

structure DpperResult where
  ep : ℝ
  inclp : ℝ
  nodep : ℝ
  argpp : ℝ
  mp : ℝ
deriving DecidableEq

def ZNS : ℝ := 1.19459e-5
def ZES : ℝ := 0.01675
def ZNL : ℝ := 1.5835218e-4
def ZEL : ℝ := 0.05490

/-- The long-period correction terms (pe, pinc, pl, pgh, ph) computed at the
top of function deper, before any baseline subtraction or application. -/
def deperPerts (satrec : SatRec) (options : DpperOption) : ℝ × ℝ × ℝ × ℝ × ℝ :=
  -- calculate time varying periodics: solar terms
  let zm := satrec.zmos + (ZNS * satrec.t)
  let zm := if options.init = DpperInit.Y then satrec.zmos else zm
  let zf := zm + (2.0 * ZES * Real.sin zm)
  let sinzf := Real.sin zf
  let f2 := (0.5 * sinzf * sinzf) - 0.25
  let f3 := -0.5 * sinzf * Real.cos zf
  let ses := (satrec.se2 * f2) + (satrec.se3 * f3)
  let sis := (satrec.si2 * f2) + (satrec.si3 * f3)
  let sls := (satrec.sl2 * f2) + (satrec.sl3 * f3) + (satrec.sl4 * sinzf)
  let sghs := (satrec.sgh2 * f2) + (satrec.sgh3 * f3) + (satrec.sgh4 * sinzf)
  let shs := (satrec.sh2 * f2) + (satrec.sh3 * f3)
  -- lunar terms
  let zm := satrec.zmol + (ZNL * satrec.t)
  let zm := if options.init = DpperInit.Y then satrec.zmol else zm
  let zf := zm + (2.0 * ZEL * Real.sin zm)
  let sinzf := Real.sin zf
  let f2 := (0.5 * sinzf * sinzf) - 0.25
  let f3 := -0.5 * sinzf * Real.cos zf
  let sel := (satrec.ee2 * f2) + (satrec.e3 * f3)
  let sil := (satrec.xi2 * f2) + (satrec.xi3 * f3)
  let sll := (satrec.xl2 * f2) + (satrec.xl3 * f3) + (satrec.xl4 * sinzf)
  let sghl := (satrec.xgh2 * f2) + (satrec.xgh3 * f3) + (satrec.xgh4 * sinzf)
  let shll := (satrec.xh2 * f2) + (satrec.xh3 * f3)
  (ses + sel, sis + sil, sls + sll, sghs + sghl, shs + shll)

/-- Deep-space long-period periodic contributions to the mean elements
(function deper; its callers name it dpper).  With init = Y the input
elements are returned unchanged; with init = N the epoch baselines
(peo, pinco, plo, pgho, pho) are subtracted from the corrections, which are
then applied, inclp and ep first. -/
def deper (satrec : SatRec) (options : DpperOption) : DpperResult :=
  let ep := options.ep
  let inclp := options.inclp
  let nodep := options.nodep
  let argpp := options.argpp
  let mp := options.mp
  let (pe, pinc, pl, pgh, ph) := deperPerts satrec options
  if options.init = DpperInit.N then
    let pe := pe - satrec.peo
    let pinc := pinc - satrec.pinco
    let pl := pl - satrec.plo
    let pgh := pgh - satrec.pgho
    let ph := ph - satrec.pho
    let inclp := inclp + pinc
    let ep := ep + pe
    let sinip := Real.sin inclp
    let cosip := Real.cos inclp
    if inclp ≥ 0.2 then
      -- apply periodics directly
      let ph := ph / sinip
      let pgh := pgh - (cosip * ph)
      let argpp := argpp + pgh
      let nodep := nodep + ph
      let mp := mp + pl
      { ep, inclp, nodep, argpp, mp }
    else
      -- apply periodics with lyddane modification
      let sinop := Real.sin nodep
      let cosop := Real.cos nodep
      let alfdp := sinip * sinop
      let betdp := sinip * cosop
      let dalf := (ph * cosop) + (pinc * cosip * sinop)
      let dbet := (-ph * sinop) + (pinc * cosip * cosop)
      let alfdp := alfdp + dalf
      let betdp := betdp + dbet
      let nodep := rfmod nodep TWO_PI
      let nodep := if nodep < 0 ∧ options.opsmode = DpperOpsMode.A then nodep + TWO_PI else nodep
      let xls := mp + argpp + (cosip * nodep)
      let dls := (pl + pgh) - (pinc * nodep * sinip)
      let xls := xls + dls
      let xnoh := nodep
      let nodep := atan2 alfdp betdp
      let nodep := if nodep < 0 ∧ options.opsmode = DpperOpsMode.A then nodep + TWO_PI else nodep
      let nodep :=
        if |xnoh - nodep| > PI then
          if nodep < xnoh then nodep + TWO_PI else nodep - TWO_PI
        else nodep
      let mp := mp + pl
      let argpp := xls - mp - (cosip * nodep)
      { ep, inclp, nodep, argpp, mp }
  else { ep, inclp, nodep, argpp, mp }

/-! ### dsinit (src/propagation/dsinit.rs) -/

structure DsInitOption where
  cosim : ℝ
  argpo : ℝ
  s1 : ℝ
  s2 : ℝ
  s3 : ℝ
  s4 : ℝ
  s5 : ℝ
  sinim : ℝ
  ss1 : ℝ
  ss2 : ℝ
  ss3 : ℝ
  ss4 : ℝ
  ss5 : ℝ
  sz1 : ℝ
  sz3 : ℝ
  sz11 : ℝ
  sz13 : ℝ
  sz21 : ℝ
  sz23 : ℝ
  sz31 : ℝ
  sz33 : ℝ
  t : ℝ
  tc : ℝ
  gsto : ℝ
  mo : ℝ
  mdot : ℝ
  no : ℝ
  nodeo : ℝ
  nodedot : ℝ
  xpidot : ℝ
  z1 : ℝ
  z3 : ℝ
  z11 : ℝ
  z13 : ℝ
  z21 : ℝ
  z23 : ℝ
  z31 : ℝ
  z33 : ℝ
  ecco : ℝ
  eccsq : ℝ
  emsq : ℝ
  em : ℝ
  argpm : ℝ
  inclm : ℝ
  mm : ℝ
  nm : ℝ
  nodem : ℝ
  irez : ℕ
  atime : ℝ
  d2201 : ℝ
  d2211 : ℝ
  d3210 : ℝ
  d3222 : ℝ
  d4410 : ℝ
  d4422 : ℝ
  d5220 : ℝ
  d5232 : ℝ
  d5421 : ℝ
  d5433 : ℝ
  dedt : ℝ
  didt : ℝ
  dmdt : ℝ
  dnodt : ℝ
  domdt : ℝ
  del1 : ℝ
  del2 : ℝ
  del3 : ℝ
  xfact : ℝ
  xlamo : ℝ
  xli : ℝ
  xni : ℝ

structure DsInitResult where
  em : ℝ
  argpm : ℝ
  inclm : ℝ
  mm : ℝ
  nm : ℝ
  nodem : ℝ
  irez : ℕ
  atime : ℝ
  d2201 : ℝ
  d2211 : ℝ
  d3210 : ℝ
  d3222 : ℝ
  d4410 : ℝ
  d4422 : ℝ
  d5220 : ℝ
  d5232 : ℝ
  d5421 : ℝ
  d5433 : ℝ
  dedt : ℝ
  didt : ℝ
  dmdt : ℝ
  dndt : ℝ
  dnodt : ℝ
  domdt : ℝ
  del1 : ℝ
  del2 : ℝ
  del3 : ℝ
  xfact : ℝ
  xlamo : ℝ
  xli : ℝ
  xni : ℝ

def Q22 : ℝ := 1.7891679e-6
def Q31 : ℝ := 2.1460748e-6
def Q33 : ℝ := 2.2123015e-7
def ROOT22 : ℝ := 1.7891679e-6
def ROOT44 : ℝ := 7.3636953e-9
def ROOT54 : ℝ := 2.1765803e-9
def RPTIM : ℝ := 4.37526908801129966e-3
def ROOT32 : ℝ := 3.7393792e-7
def ROOT52 : ℝ := 1.1428639e-7

/-- The resonance angle theta used by dsinit (and dspace): Greenwich sidereal
time advanced by tc, reduced modulo two pi. -/
def dsinitTheta (gsto tc : ℝ) : ℝ := rfmod (gsto + (tc * RPTIM)) TWO_PI

/-- The resonance classification of dsinit (dsinit.rs lines 319-325):
irez starts at 0, becomes 1 in the synchronous band and 2 in the
half-day band (the half-day test runs second and wins). -/
def dsinitIrez (nm em : ℝ) : ℕ :=
  let irez : ℕ := 0
  let irez := if nm < 0.0052359877 ∧ nm > 0.0034906585 then 1 else irez
  let irez := if nm ≥ 8.26e-3 ∧ nm ≤ 9.24e-3 ∧ em ≥ 0.5 then 2 else irez
  irez

/-- The secular rates and time-advanced mean elements computed by the
straight-line prefix of dsinit (dsinit.rs lines 327-368), shared by all
three resonance branches. -/
structure DsInitSec where
  dedt : ℝ
  didt : ℝ
  dmdt : ℝ
  dnodt : ℝ
  domdt : ℝ
  dndt : ℝ
  theta : ℝ
  em : ℝ
  argpm : ℝ
  inclm : ℝ
  mm : ℝ
  nodem : ℝ

/-- The straight-line prefix of dsinit (dsinit.rs lines 327-368): solar and
lunar secular rates, theta, and the mean elements advanced by t. -/
def dsinitSec (options : DsInitOption) : DsInitSec :=
  let cosim := options.cosim
  let s1 := options.s1
  let s2 := options.s2
  let s3 := options.s3
  let s4 := options.s4
  let s5 := options.s5
  let sinim := options.sinim
  let ss1 := options.ss1
  let ss2 := options.ss2
  let ss3 := options.ss3
  let ss4 := options.ss4
  let ss5 := options.ss5
  let sz1 := options.sz1
  let sz3 := options.sz3
  let sz11 := options.sz11
  let sz13 := options.sz13
  let sz21 := options.sz21
  let sz23 := options.sz23
  let sz31 := options.sz31
  let sz33 := options.sz33
  let t := options.t
  let tc := options.tc
  let gsto := options.gsto
  let z1 := options.z1
  let z3 := options.z3
  let z11 := options.z11
  let z13 := options.z13
  let z21 := options.z21
  let z23 := options.z23
  let z31 := options.z31
  let z33 := options.z33
  let emsq := options.emsq
  let em := options.em
  let argpm := options.argpm
  let inclm := options.inclm
  let mm := options.mm
  let nodem := options.nodem
  -- do solar terms
  let ses := ss1 * ZNS * ss5
  let sis := ss2 * ZNS * (sz11 + sz13)
  let sls := -ZNS * ss3 * ((sz1 + sz3) - 14.0 - (6.0 * emsq))
  let sghs := ss4 * ZNS * ((sz31 + sz33) - 6.0)
  let shs := -ZNS * ss2 * (sz21 + sz23)
  -- sgp4fix for 180 deg incl
  let shs := if inclm < 5.2359877e-2 ∨ inclm > PI - 5.2359877e-2 then 0 else shs
  let shs := if sinim ≠ 0 then shs / sinim else shs
  let sgs := sghs - (cosim * shs)
  -- do lunar terms
  let dedt := ses + (s1 * ZNL * s5)
  let didt := sis + (s2 * ZNL * (z11 + z13))
  let dmdt := sls - (ZNL * s3 * ((z1 + z3) - 14.0 - (6.0 * emsq)))
  let sghl := s4 * ZNL * ((z31 + z33) - 6.0)
  let shll := -ZNL * s2 * (z21 + z23)
  let shll := if inclm < 5.2359877e-2 ∨ inclm > PI - 5.2359877e-2 then 0 else shll
  let domdt := sgs + sghl
  let dnodt := shs
  let domdt := if sinim ≠ 0 then domdt - ((cosim / sinim) * shll) else domdt
  let dnodt := if sinim ≠ 0 then dnodt + (shll / sinim) else dnodt
  -- calculate deep space resonance effects
  let dndt : ℝ := 0.0
  let theta := dsinitTheta gsto tc
  { dedt, didt, dmdt, dnodt, domdt, dndt, theta,
    em := em + (dedt * t),
    inclm := inclm + (didt * t),
    argpm := argpm + (domdt * t),
    nodem := nodem + (dnodt * t),
    mm := mm + (dmdt * t) }

/-- The half-day resonance branch of dsinit (dsinit.rs lines 384-468 plus
the integrator initialization of lines 488-491 and the final record). -/
def dsinitRes2 (options : DsInitOption) (s : DsInitSec) (irez : ℕ) : DsInitResult :=
  let cosim := options.cosim
  let sinim := options.sinim
  let mo := options.mo
  let mdot := options.mdot
  let no := options.no
  let nodeo := options.nodeo
  let nodedot := options.nodedot
  let ecco := options.ecco
  let eccsq := options.eccsq
  let nm := options.nm
  let aonv := (nm / XKE) ^ (X2O3 : ℝ)
  -- geopotential resonance for 12 hour orbits
  let cosisq := cosim * cosim
  let emo := s.em
  let em := ecco
  let emsq := eccsq
  let eoc := em * emsq
  let g201 := -0.306 - ((em - 0.64) * 0.440)
  let gA :=
    if em ≤ 0.65 then
      ((3.616 - (13.2470 * em)) + (16.2900 * emsq),
       ((-19.302 + (117.3900 * em)) - (228.4190 * emsq)) + (156.5910 * eoc),
       ((-18.9068 + (109.7927 * em)) - (214.6334 * emsq)) + (146.5816 * eoc),
       ((-41.122 + (242.6940 * em)) - (471.0940 * emsq)) + (313.9530 * eoc),
       ((-146.407 + (841.8800 * em)) - (1629.014 * emsq)) + (1083.4350 * eoc),
       ((-532.114 + (3017.977 * em)) - (5740.032 * emsq)) + (3708.2760 * eoc))
    else
      (((-72.099 + (331.819 * em)) - (508.738 * emsq)) + (266.724 * eoc),
       ((-346.844 + (1582.851 * em)) - (2415.925 * emsq)) + (1246.113 * eoc),
       ((-342.585 + (1554.908 * em)) - (2366.899 * emsq)) + (1215.972 * eoc),
       ((-1052.797 + (4758.686 * em)) - (7193.992 * emsq)) + (3651.957 * eoc),
       ((-3581.690 + (16178.110 * em)) - (24462.770 * emsq)) + (12422.520 * eoc),
       if em > 0.715 then
         ((-5149.66 + (29936.92 * em)) - (54087.36 * emsq)) + (31324.56 * eoc)
       else (1464.74 - (4664.75 * em)) + (3763.64 * emsq))
  let g211 := gA.1
  let g310 := gA.2.1
  let g322 := gA.2.2.1
  let g410 := gA.2.2.2.1
  let g422 := gA.2.2.2.2.1
  let g520 := gA.2.2.2.2.2
  let gB :=
    if em < 0.7 then
      (((-919.22770 + (4988.6100 * em)) - (9064.7700 * emsq)) + (5542.21 * eoc),
       ((-822.71072 + (4568.6173 * em)) - (8491.4146 * emsq)) + (5337.524 * eoc),
       ((-853.66600 + (4690.2500 * em)) - (8624.7700 * emsq)) + (5341.4 * eoc))
    else
      (((-37995.780 + (161616.52 * em)) - (229838.20 * emsq)) + (109377.94 * eoc),
       ((-51752.104 + (218913.95 * em)) - (309468.16 * emsq)) + (146349.42 * eoc),
       ((-40023.880 + (170470.89 * em)) - (242699.48 * emsq)) + (115605.82 * eoc))
  let g533 := gB.1
  let g521 := gB.2.1
  let g532 := gB.2.2
  let sini2 := sinim * sinim
  let f220 := 0.75 * (1.0 + (2.0 * cosim) + cosisq)
  let f221 := 1.5 * sini2
  let f321 := 1.875 * sinim * (1.0 - (2.0 * cosim) - (3.0 * cosisq))
  let f322 := -1.875 * sinim * ((1.0 + (2.0 * cosim)) - (3.0 * cosisq))
  let f441 := 35.0 * sini2 * f220
  let f442 := 39.3750 * sini2 * sini2
  let f522 := 9.84375 * sinim *
    ((sini2 * (1.0 - (2.0 * cosim) - (5.0 * cosisq))) +
      (0.33333333 * (-2.0 + (4.0 * cosim) + (6.0 * cosisq))))
  let f523 := sinim *
    ((4.92187512 * sini2 * ((-2.0 - (4.0 * cosim)) + (10.0 * cosisq))) +
      (6.56250012 * ((1.0 + (2.0 * cosim)) - (3.0 * cosisq))))
  let f542 := 29.53125 * sinim *
    ((2.0 - (8.0 * cosim)) + (cosisq * (-12.0 + (8.0 * cosim) + (10.0 * cosisq))))
  let f543 := 29.53125 * sinim *
    ((-2.0 - (8.0 * cosim)) + (cosisq * ((12.0 + (8.0 * cosim)) - (10.0 * cosisq))))
  let xno2 := nm * nm
  let ainv2 := aonv * aonv
  let temp1 := 3.0 * xno2 * ainv2
  let temp := temp1 * ROOT22
  let d2201 := temp * f220 * g201
  let d2211 := temp * f221 * g211
  let temp1 := temp1 * aonv
  let temp := temp1 * ROOT32
  let d3210 := temp * f321 * g310
  let d3222 := temp * f322 * g322
  let temp1 := temp1 * aonv
  let temp := 2.0 * temp1 * ROOT44
  let d4410 := temp * f441 * g410
  let d4422 := temp * f442 * g422
  let temp1 := temp1 * aonv
  let temp := temp1 * ROOT52
  let d5220 := temp * f522 * g520
  let d5232 := temp * f523 * g532
  let temp := 2.0 * temp1 * ROOT54
  let d5421 := temp * f542 * g521
  let d5433 := temp * f543 * g533
  let xlamo := rfmod ((mo + nodeo + nodeo) - (s.theta + s.theta)) TWO_PI
  let xfact := (mdot + s.dmdt + (2.0 * ((nodedot + s.dnodt) - RPTIM))) - no
  let em := emo
  { em, argpm := s.argpm, inclm := s.inclm, mm := s.mm,
    nm := no + s.dndt, nodem := s.nodem, irez, atime := 0,
    d2201, d2211, d3210, d3222, d4410, d4422, d5220, d5232, d5421, d5433,
    dedt := s.dedt, didt := s.didt, dmdt := s.dmdt, dndt := s.dndt,
    dnodt := s.dnodt, domdt := s.domdt,
    del1 := options.del1, del2 := options.del2, del3 := options.del3,
    xfact, xlamo, xli := xlamo, xni := no }

/-- The synchronous resonance branch of dsinit (dsinit.rs lines 471-485 plus
the integrator initialization of lines 488-491 and the final record). -/
def dsinitRes1 (options : DsInitOption) (s : DsInitSec) (irez : ℕ) : DsInitResult :=
  let cosim := options.cosim
  let sinim := options.sinim
  let argpo := options.argpo
  let mo := options.mo
  let mdot := options.mdot
  let no := options.no
  let nodeo := options.nodeo
  let xpidot := options.xpidot
  let emsq := options.emsq
  let nm := options.nm
  let aonv := (nm / XKE) ^ (X2O3 : ℝ)
  -- synchronous resonance terms
  let g200 := 1.0 + (emsq * (-2.5 + (0.8125 * emsq)))
  let g310 := 1.0 + (2.0 * emsq)
  let g300 := 1.0 + (emsq * (-6.0 + (6.60937 * emsq)))
  let f220 := 0.75 * (1.0 + cosim) * (1.0 + cosim)
  let f311 := (0.9375 * sinim * sinim * (1.0 + (3.0 * cosim))) - (0.75 * (1.0 + cosim))
  let f330 := 1.0 + cosim
  let f330 := f330 * (1.875 * f330 * f330)
  let del1 := 3.0 * nm * nm * aonv * aonv
  let del2 := 2.0 * del1 * f220 * g200 * Q22
  let del3 := 3.0 * del1 * f330 * g300 * Q33 * aonv
  let del1 := del1 * f311 * g310 * Q31 * aonv
  let xlamo := rfmod ((mo + nodeo + argpo) - s.theta) TWO_PI
  let xfact := (mdot + xpidot + s.dmdt + s.domdt + s.dnodt) - (no + RPTIM)
  { em := s.em, argpm := s.argpm, inclm := s.inclm, mm := s.mm,
    nm := no + s.dndt, nodem := s.nodem, irez, atime := 0,
    d2201 := options.d2201, d2211 := options.d2211, d3210 := options.d3210,
    d3222 := options.d3222, d4410 := options.d4410, d4422 := options.d4422,
    d5220 := options.d5220, d5232 := options.d5232, d5421 := options.d5421,
    d5433 := options.d5433,
    dedt := s.dedt, didt := s.didt, dmdt := s.dmdt, dndt := s.dndt,
    dnodt := s.dnodt, domdt := s.domdt,
    del1, del2, del3, xfact, xlamo, xli := xlamo, xni := no }

/-- The no-resonance fallthrough of dsinit: the final record with every
resonance field passed through from the input. -/
def dsinitRes0 (options : DsInitOption) (s : DsInitSec) (irez : ℕ) : DsInitResult :=
  { em := s.em, argpm := s.argpm, inclm := s.inclm, mm := s.mm,
    nm := options.nm, nodem := s.nodem, irez, atime := options.atime,
    d2201 := options.d2201, d2211 := options.d2211, d3210 := options.d3210,
    d3222 := options.d3222, d4410 := options.d4410, d4422 := options.d4422,
    d5220 := options.d5220, d5232 := options.d5232, d5421 := options.d5421,
    d5433 := options.d5433,
    dedt := s.dedt, didt := s.didt, dmdt := s.dmdt, dndt := s.dndt,
    dnodt := s.dnodt, domdt := s.domdt,
    del1 := options.del1, del2 := options.del2, del3 := options.del3,
    xfact := options.xfact, xlamo := options.xlamo,
    xli := options.xli, xni := options.xni }

/-- Deep-space resonance initialization (function dsinit): resonance
classification, lunar/solar secular rates, the 12-hour and synchronous
resonance coefficients, and the initial integrator state. -/
def dsinit (options : DsInitOption) : DsInitResult :=
  let irez := dsinitIrez options.nm options.em
  let s := dsinitSec options
  -- initialize the resonance terms
  if irez ≠ 0 then
    if irez = 2 then dsinitRes2 options s irez
    else dsinitRes1 options s irez
  else dsinitRes0 options s irez

/-! ### dspace (src/propagation/dspace.rs) -/

structure DspaceOption where
  irez : ℕ
  d2201 : ℝ
  d2211 : ℝ
  d3210 : ℝ
  d3222 : ℝ
  d4410 : ℝ
  d4422 : ℝ
  d5220 : ℝ
  d5232 : ℝ
  d5421 : ℝ
  d5433 : ℝ
  dedt : ℝ
  del1 : ℝ
  del2 : ℝ
  del3 : ℝ
  didt : ℝ
  dmdt : ℝ
  dnodt : ℝ
  domdt : ℝ
  argpo : ℝ
  argpdot : ℝ
  t : ℝ
  tc : ℝ
  gsto : ℝ
  xfact : ℝ
  xlamo : ℝ
  no : ℝ
  atime : ℝ
  em : ℝ
  argpm : ℝ
  inclm : ℝ
  xli : ℝ
  mm : ℝ
  xni : ℝ
  nodem : ℝ
  nm : ℝ

structure DspaceResult where
  atime : ℝ
  em : ℝ
  argpm : ℝ
  inclm : ℝ
  xli : ℝ
  mm : ℝ
  xni : ℝ
  nodem : ℝ
  dndt : ℝ
  nm : ℝ

def FASX2 : ℝ := 0.13130908
def FASX4 : ℝ := 2.8843198
def FASX6 : ℝ := 0.37448087
def G22 : ℝ := 5.7686396
def G32 : ℝ := 0.95240898
def G44 : ℝ := 1.8014998
def G52 : ℝ := 1.0508330
def G54 : ℝ := 4.4108898
def STEPP : ℝ := 720.0
def STEPN : ℝ := -720.0
def STEP2 : ℝ := 259200.0

/-- State carried by the Euler-Maclaurin resonance integrator of dspace:
the integrator time and the integrated angle and mean motion. -/
structure DsLoopSt where
  atime : ℝ
  xli : ℝ
  xni : ℝ

/-- Result of the integration loop of dspace: final state, the dot terms of
the last iteration, and the remaining fraction of a step ft = t - atime. -/
structure DsLoopOut where
  st : DsLoopSt
  xndt : ℝ
  xldot : ℝ
  xnddt : ℝ
  ft : ℝ

/-- The dot terms (xndt, xldot, xnddt) of one iteration of the dspace
integration loop: near-synchronous terms when irez is not 2, near-half-day
terms when it is. -/
def dspaceDots (o : DspaceOption) (st : DsLoopSt) : ℝ × ℝ × ℝ :=
  if o.irez ≠ 2 then
    let xndt := (o.del1 * Real.sin (st.xli - FASX2)) +
      (o.del2 * (2.0 * Real.sin (st.xli - FASX4))) +
      (o.del3 * Real.sin (3.0 * (st.xli - FASX6)))
    let xldot := st.xni + o.xfact
    let xnddt := (o.del1 * Real.cos (st.xli - FASX2)) +
      (2.0 * o.del2 * (2.0 * Real.cos (st.xli - FASX4))) +
      (3.0 * o.del3 * Real.cos (3.0 * (st.xli - FASX6)))
    (xndt, xldot, xnddt * xldot)
  else
    let xomi := o.argpo + (o.argpdot * st.atime)
    let x2omi := xomi + xomi
    let x2li := st.xli + st.xli
    let xndt := (o.d2201 * Real.sin ((x2omi + st.xli) - G22)) +
      (o.d2211 * Real.sin (st.xli - G22)) +
      (o.d3210 * Real.sin ((xomi + st.xli) - G32)) +
      (o.d3222 * Real.sin ((-xomi + st.xli) - G32)) +
      (o.d4410 * Real.sin ((x2omi + x2li) - G44)) +
      (o.d4422 * Real.sin (x2li - G44)) +
      (o.d5220 * Real.sin ((xomi + st.xli) - G52)) +
      (o.d5232 * Real.sin ((-xomi + st.xli) - G52)) +
      (o.d5421 * Real.sin ((xomi + x2li) - G54)) +
      (o.d5433 * Real.sin ((-xomi + x2li) - G54))
    let xldot := st.xni + o.xfact
    let xnddt := (o.d2201 * Real.cos ((x2omi + st.xli) - G22)) +
      (o.d2211 * Real.cos (st.xli - G22)) +
      (o.d3210 * Real.cos ((xomi + st.xli) - G32)) +
      (o.d3222 * Real.cos ((-xomi + st.xli) - G32)) +
      (o.d5220 * Real.cos ((xomi + st.xli) - G52)) +
      (o.d5232 * Real.cos ((-xomi + st.xli) - G52)) +
      2.0 * ((o.d4410 * Real.cos ((x2omi + x2li) - G44)) +
        (o.d4422 * Real.cos (x2li - G44)) +
        (o.d5421 * Real.cos ((xomi + x2li) - G54)) +
        (o.d5433 * Real.cos ((-xomi + x2li) - G54)))
    (xndt, xldot, xnddt * xldot)

/-- Invariant of the dspace integration loop: the integrator time lies
between zero and the target time (inclusive, on either side of zero). -/
def dspaceInv (t a : ℝ) : Prop := (0 ≤ a ∧ a ≤ t) ∨ (t ≤ a ∧ a ≤ 0)

theorem dspaceInv_step {t a : ℝ} (h : dspaceInv t a) (hfar : STEPP ≤ |t - a|) :
    dspaceInv t (a + if t > 0 then STEPP else STEPN) := by
  have h720 : (STEPP : ℝ) = 720 := by norm_num [STEPP]
  have hN : (STEPN : ℝ) = -720 := by norm_num [STEPN]
  rcases h with ⟨h0, h1⟩ | ⟨h0, h1⟩
  · by_cases ht : t > 0
    · rw [if_pos ht]
      rw [abs_of_nonneg (by linarith)] at hfar
      left
      constructor <;> linarith
    · exfalso
      have ht' : t ≤ 0 := not_lt.mp ht
      have ha : a = 0 := le_antisymm (by linarith) h0
      have htz : t = 0 := le_antisymm ht' (by linarith)
      rw [ha, htz] at hfar
      simp at hfar
      linarith
  · have ht : ¬ t > 0 := by
      intro ht
      linarith
    rw [if_neg ht]
    rw [abs_of_nonpos (by linarith)] at hfar
    right
    constructor <;> linarith

theorem dspace_measure_lt {t a : ℝ} (h : dspaceInv t a) (hfar : STEPP ≤ |t - a|) :
    (⌈|t - (a + if t > 0 then STEPP else STEPN)| / STEPP⌉).toNat <
      (⌈|t - a| / STEPP⌉).toNat := by
  have hstep : (0:ℝ) < STEPP := by norm_num [STEPP]
  have h720 : (STEPP : ℝ) = 720 := by norm_num [STEPP]
  have hN : (STEPN : ℝ) = -720 := by norm_num [STEPN]
  have key : |t - (a + if t > 0 then STEPP else STEPN)| = |t - a| - STEPP := by
    rcases h with ⟨h0, h1⟩ | ⟨h0, h1⟩
    · have ht : t > 0 := by
        by_contra ht
        have ht' : t ≤ 0 := not_lt.mp ht
        have ha : a = 0 := le_antisymm (by linarith) h0
        have htz : t = 0 := le_antisymm ht' (by linarith)
        rw [ha, htz] at hfar
        simp at hfar
        linarith
      have habs : |t - a| = t - a := abs_of_nonneg (by linarith)
      rw [habs] at hfar
      rw [if_pos ht, habs, abs_of_nonneg (by linarith)]
      ring
    · have ht : ¬ t > 0 := fun ht => by linarith
      have habs : |t - a| = -(t - a) := abs_of_nonpos (by linarith)
      rw [habs] at hfar
      rw [if_neg ht, habs, abs_of_nonpos (by linarith), hN, h720]
      ring
  rw [key]
  have hq : (|t - a| - STEPP) / STEPP = |t - a| / STEPP - 1 := by
    field_simp
  rw [hq]
  have hceil : ⌈|t - a| / STEPP - 1⌉ = ⌈|t - a| / STEPP⌉ - 1 := by
    have := Int.ceil_sub_int (|t - a| / STEPP) 1
    simp only [Int.cast_one] at this
    exact this
  rw [hceil]
  have hpos : 0 < ⌈|t - a| / STEPP⌉ := by
    rw [Int.lt_ceil]
    push_cast
    exact lt_of_lt_of_le (by positivity) ((one_le_div hstep).mpr hfar)
  omega

/-- One execution of the do-while integration loop of dspace (the iretn = 381
loop): compute the dot terms, and while a full step away from t advance the
state by one 720-minute Euler-Maclaurin step. -/
def dspaceLoop (o : DspaceOption) (st : DsLoopSt) (h : dspaceInv o.t st.atime) :
    DsLoopOut :=
  let dots := dspaceDots o st
  let delt := if o.t > 0 then STEPP else STEPN
  if hfar : STEPP ≤ |o.t - st.atime| then
    dspaceLoop o
      ⟨st.atime + delt,
       st.xli + (dots.2.1 * delt) + (dots.1 * STEP2),
       st.xni + (dots.1 * delt) + (dots.2.2 * STEP2)⟩
      (dspaceInv_step h hfar)
  else ⟨st, dots.1, dots.2.1, dots.2.2, o.t - st.atime⟩
termination_by (⌈|o.t - st.atime| / STEPP⌉).toNat
decreasing_by
  exact dspace_measure_lt h hfar

/-- One 720-minute Euler-Maclaurin step of the dspace integration loop
(the body executed when the loop continues). -/
def dspaceStep (o : DspaceOption) (st : DsLoopSt) : DsLoopSt :=
  let dots := dspaceDots o st
  let delt := if o.t > 0 then STEPP else STEPN
  ⟨st.atime + delt,
   st.xli + (dots.2.1 * delt) + (dots.1 * STEP2),
   st.xni + (dots.1 * delt) + (dots.2.2 * STEP2)⟩

/-- The exit of the dspace integration loop: the final state, the dot terms
at that state and the remainder ft = t - atime. -/
def dspaceExit (o : DspaceOption) (st : DsLoopSt) : DsLoopOut :=
  let dots := dspaceDots o st
  ⟨st, dots.1, dots.2.1, dots.2.2, o.t - st.atime⟩

/-- The epoch-restart logic at the head of the resonance branch of dspace:
reset the integrator to the epoch whenever atime is 0, t and atime straddle
zero, or t is closer to zero than atime. -/
def dspaceEntry (o : DspaceOption) : DsLoopSt :=
  if o.atime = 0 ∨ o.t * o.atime ≤ 0 ∨ |o.t| < |o.atime| then ⟨0, o.xlamo, o.no⟩
  else ⟨o.atime, o.xli, o.xni⟩

theorem dspaceEntry_inv (o : DspaceOption) : dspaceInv o.t (dspaceEntry o).atime := by
  unfold dspaceEntry dspaceInv
  split_ifs with h
  · rcases le_total 0 o.t with ht | ht
    · exact Or.inl ⟨le_refl 0, ht⟩
    · exact Or.inr ⟨ht, le_refl 0⟩
  · push_neg at h
    obtain ⟨hne, hprod, habs⟩ := h
    rcases lt_or_gt_of_ne hne with hneg | hpos
    · have ht : o.t < 0 := by
        rcases lt_trichotomy o.t 0 with h' | h' | h'
        · exact h'
        · exfalso; rw [h'] at hprod; simp at hprod
        · exfalso; nlinarith
      right
      refine ⟨?_, hneg.le⟩
      rw [abs_of_neg hneg, abs_of_neg ht] at habs
      linarith
    · have ht : 0 < o.t := by
        rcases lt_trichotomy o.t 0 with h' | h' | h'
        · exfalso; nlinarith
        · exfalso; rw [h'] at hprod; simp at hprod
        · exact h'
      left
      refine ⟨hpos.le, ?_⟩
      rw [abs_of_pos hpos, abs_of_pos ht] at habs
      linarith

/-- The full integration loop run of dspace: epoch restart followed by the
stepping loop. -/
def dspaceLoopRun (o : DspaceOption) : DsLoopOut :=
  dspaceLoop o (dspaceEntry o) (dspaceEntry_inv o)

/-- Deep-space secular rates and resonance integration (function dspace). -/
def dspace (options : DspaceOption) : DspaceResult :=
  let irez := options.irez
  let dedt := options.dedt
  let didt := options.didt
  let dmdt := options.dmdt
  let dnodt := options.dnodt
  let domdt := options.domdt
  let argpo := options.argpo
  let argpdot := options.argpdot
  let t := options.t
  let tc := options.tc
  let gsto := options.gsto
  let no := options.no
  let atime := options.atime
  let em := options.em
  let argpm := options.argpm
  let inclm := options.inclm
  let xli := options.xli
  let mm := options.mm
  let xni := options.xni
  let nodem := options.nodem
  let nm := options.nm
  -- calculate deep space resonance effects
  let theta := rfmod (gsto + (tc * RPTIM)) TWO_PI
  let em := em + (dedt * t)
  let inclm := inclm + (didt * t)
  let argpm := argpm + (domdt * t)
  let nodem := nodem + (dnodt * t)
  let mm := mm + (dmdt * t)
  -- update resonances: numerical (euler-maclaurin) integration
  if irez ≠ 0 then
    let out := dspaceLoopRun options
    let ft := out.ft
    let nm := out.st.xni + (out.xndt * ft) + (out.xnddt * ft * ft * 0.5)
    let xl := out.st.xli + (out.xldot * ft) + (out.xndt * ft * ft * 0.5)
    let (mm, dndt) :=
      if irez ≠ 1 then ((xl - (2.0 * nodem)) + (2.0 * theta), nm - no)
      else ((xl - nodem - argpm) + theta, nm - no)
    let nm := no + dndt
    { atime := out.st.atime, em, argpm, inclm, xli := out.st.xli, mm,
      xni := out.st.xni, nodem, dndt, nm }
  else
    { atime, em, argpm, inclm, xli, mm, xni, nodem, dndt := 0, nm }

/-! ### sgp4 (src/propagation/sgp4.rs) -/

inductive Sgp4Error where
  | FF
  | FpFv
deriving DecidableEq, Repr

structure Sgp4Result where
  position : Vector3
  velocity : Vector3
deriving DecidableEq

/-- The mean elements after the secular gravity/drag update of sgp4
(including the dspace contribution in the deep-space case), together with
the drag factors tempa, tempe, templ. -/
structure Sgp4Sec where
  em : ℝ
  argpm : ℝ
  inclm : ℝ
  mm : ℝ
  nodem : ℝ
  nm : ℝ
  tempa : ℝ
  tempe : ℝ
  templ : ℝ

/-- Secular update phase of sgp4 (update for secular gravity and atmospheric
drag, followed by the dspace call when the method is deep-space 'd'). -/
def sgp4Sec (satrec : SatRec) (tsince : ℝ) : Sgp4Sec :=
  let t := tsince
  let xmdf := satrec.mo + (satrec.mdot * t)
  let argpdf := satrec.argpo + (satrec.argpdot * t)
  let nodedf := satrec.nodeo + (satrec.nodedot * t)
  let argpm := argpdf
  let mm := xmdf
  let t2 := t * t
  let nodem := nodedf + (satrec.nodecf * t2)
  let tempa := 1.0 - (satrec.cc1 * t)
  let tempe := satrec.bstar * satrec.cc4 * t
  let templ := satrec.t2cof * t2
  let (mm, argpm, tempa, tempe, templ) :=
    if satrec.isimp ≠ 1 then
      let delomg := satrec.omgcof * t
      let delmtemp := 1.0 + (satrec.eta * Real.cos xmdf)
      let delm := satrec.xmcof * ((delmtemp * delmtemp * delmtemp) - satrec.delmo)
      let temp := delomg + delm
      let mm := xmdf + temp
      let argpm := argpdf - temp
      let t3 := t2 * t
      let t4 := t3 * t
      let tempa := tempa - (satrec.d2 * t2) - (satrec.d3 * t3) - (satrec.d4 * t4)
      let tempe := tempe + satrec.bstar * satrec.cc5 * (Real.sin mm - satrec.sinmao)
      let templ := templ + (satrec.t3cof * t3) + (t4 * (satrec.t4cof + (t * satrec.t5cof)))
      (mm, argpm, tempa, tempe, templ)
    else (mm, argpm, tempa, tempe, templ)
  let nm := satrec.no
  let em := satrec.ecco
  let inclm := satrec.inclo
  if satrec.method = 'd' then
    let dspace_result := dspace
      { irez := satrec.irez, d2201 := satrec.d2201, d2211 := satrec.d2211,
        d3210 := satrec.d3210, d3222 := satrec.d3222, d4410 := satrec.d4410,
        d4422 := satrec.d4422, d5220 := satrec.d5220, d5232 := satrec.d5232,
        d5421 := satrec.d5421, d5433 := satrec.d5433, dedt := satrec.dedt,
        del1 := satrec.del1, del2 := satrec.del2, del3 := satrec.del3,
        didt := satrec.didt, dmdt := satrec.dmdt, dnodt := satrec.dnodt,
        domdt := satrec.domdt, argpo := satrec.argpo, argpdot := satrec.argpdot,
        t := t, tc := t, gsto := satrec.gsto, xfact := satrec.xfact,
        xlamo := satrec.xlamo, no := satrec.no, atime := satrec.atime,
        em := em, argpm := argpm, inclm := inclm, xli := satrec.xli,
        mm := mm, xni := satrec.xni, nodem := nodem, nm := nm }
    { em := dspace_result.em, argpm := dspace_result.argpm,
      inclm := dspace_result.inclm, mm := dspace_result.mm,
      nodem := dspace_result.nodem, nm := dspace_result.nm,
      tempa, tempe, templ }
  else { em, argpm, inclm, mm, nodem, nm, tempa, tempe, templ }

/-- Semi-major axis refreshed from the post-secular mean motion. -/
def sgp4Am (satrec : SatRec) (tsince : ℝ) : ℝ :=
  let sec := sgp4Sec satrec tsince
  ((XKE / sec.nm) ^ (X2O3 : ℝ)) * sec.tempa * sec.tempa

/-- Mean motion refreshed from the semi-major axis. -/
def sgp4Nm (satrec : SatRec) (tsince : ℝ) : ℝ :=
  XKE / ((sgp4Am satrec tsince) ^ (1.5 : ℝ))

/-- Eccentricity after subtracting the drag term tempe. -/
def sgp4Em (satrec : SatRec) (tsince : ℝ) : ℝ :=
  (sgp4Sec satrec tsince).em - (sgp4Sec satrec tsince).tempe

/-- The eccentricity used downstream: clamped to at least 1e-6 (tolerance to
avoid a divide by zero). -/
def sgp4EmClamped (satrec : SatRec) (tsince : ℝ) : ℝ :=
  if sgp4Em satrec tsince < 1.0e-6 then 1.0e-6 else sgp4Em satrec tsince

/-- The angles (mm, argpm, nodem) after the modulo-two-pi reductions of
sgp4. -/
def sgp4Angles (satrec : SatRec) (tsince : ℝ) : ℝ × ℝ × ℝ :=
  let sec := sgp4Sec satrec tsince
  let mm := sec.mm + (satrec.no * sec.templ)
  let xlm := mm + sec.argpm + sec.nodem
  let nodem := rfmod sec.nodem TWO_PI
  let argpm := rfmod sec.argpm TWO_PI
  let xlm := rfmod xlm TWO_PI
  let mm := rfmod (xlm - argpm - nodem) TWO_PI
  (mm, argpm, nodem)

/-- The element set perturbed by the lunar-solar periodics of dpper (phase 4
of sgp4), with the negative-inclination reflection applied.  For a
near-Earth record the elements pass through unchanged. -/
structure Sgp4Pert where
  ep : ℝ
  xincp : ℝ
  nodep : ℝ
  argpp : ℝ
  mp : ℝ

def sgp4Pert (satrec : SatRec) (tsince : ℝ) : Sgp4Pert :=
  let (mm, argpm, nodem) := sgp4Angles satrec tsince
  let em := sgp4EmClamped satrec tsince
  let inclm := (sgp4Sec satrec tsince).inclm
  if satrec.method = 'd' then
    let dpper_result := deper {satrec with t := tsince, error := 0}
      { init := DpperInit.N, opsmode := satrec.operationmode,
        ep := em, inclp := inclm, nodep := nodem, argpp := argpm, mp := mm }
    if dpper_result.inclp < 0 then
      { ep := dpper_result.ep, xincp := -dpper_result.inclp,
        nodep := dpper_result.nodep + PI, argpp := dpper_result.argpp - PI,
        mp := dpper_result.mp }
    else
      { ep := dpper_result.ep, xincp := dpper_result.inclp,
        nodep := dpper_result.nodep, argpp := dpper_result.argpp,
        mp := dpper_result.mp }
  else { ep := em, xincp := inclm, nodep := nodem, argpp := argpm, mp := mm }

def sgp4Sinip (satrec : SatRec) (tsince : ℝ) : ℝ :=
  Real.sin (sgp4Pert satrec tsince).xincp

def sgp4Cosip (satrec : SatRec) (tsince : ℝ) : ℝ :=
  Real.cos (sgp4Pert satrec tsince).xincp

/-- The divisor of the long-period coefficient xlcof: 1 + cos i, replaced by
the floor temp4 = 1.5e-12 in the near-180-degree singular case.  Shared by
sgp4 (perturbed inclination) and sgp4init (epoch inclination). -/
def xlcofDivisor (cosip : ℝ) : ℝ :=
  if |cosip + 1.0| > 1.5e-12 then 1.0 + cosip else 1.5e-12

/-- The long-period coefficient xlcof as computed by sgp4 and sgp4init. -/
def xlcofFun (sinip cosip : ℝ) : ℝ :=
  (-0.25 * J3OJ2 * sinip * (3.0 + (5.0 * cosip))) / xlcofDivisor cosip

/-- aycof as used by phase 6 of sgp4: recomputed from the perturbed
inclination in deep space, the stored epoch value otherwise. -/
def sgp4Aycof (satrec : SatRec) (tsince : ℝ) : ℝ :=
  if satrec.method = 'd' then -0.5 * J3OJ2 * sgp4Sinip satrec tsince else satrec.aycof

/-- xlcof as used by phase 6 of sgp4. -/
def sgp4Xlcof (satrec : SatRec) (tsince : ℝ) : ℝ :=
  if satrec.method = 'd' then
    xlcofFun (sgp4Sinip satrec tsince) (sgp4Cosip satrec tsince)
  else satrec.xlcof

/-- The quantities (axnl, aynl, xl) entering Kepler's equation. -/
def sgp4AxnlAynlXl (satrec : SatRec) (tsince : ℝ) : ℝ × ℝ × ℝ :=
  let pert := sgp4Pert satrec tsince
  let am := sgp4Am satrec tsince
  let axnl := pert.ep * Real.cos pert.argpp
  let temp := 1.0 / (am * (1.0 - (pert.ep * pert.ep)))
  let aynl := (pert.ep * Real.sin pert.argpp) + (temp * sgp4Aycof satrec tsince)
  let xl := pert.mp + pert.argpp + pert.nodep + (temp * sgp4Xlcof satrec tsince * axnl)
  (axnl, aynl, xl)

/-- The Newton iteration for Kepler's equation: state (eo1, tem5, sineo1,
coseo1), at most the given number of further iterations, stopping early when
the correction drops below 1e-12; each correction is clamped to magnitude
0.95. -/
def sgp4KeplerIter (axnl aynl u : ℝ) : ℕ → ℝ × ℝ × ℝ × ℝ → ℝ × ℝ × ℝ × ℝ
  | 0, st => st
  | fuel + 1, (eo1, tem5, sineo1, coseo1) =>
    if |tem5| ≥ 1.0e-12 then
      let sineo1 := Real.sin eo1
      let coseo1 := Real.cos eo1
      let tem5 := 1.0 - (coseo1 * axnl) - (sineo1 * aynl)
      let tem5 := (((u - (aynl * coseo1)) + (axnl * sineo1)) - eo1) / tem5
      let tem5 := if |tem5| ≥ 0.95 then (if tem5 > 0 then 0.95 else -0.95) else tem5
      sgp4KeplerIter axnl aynl u fuel (eo1 + tem5, tem5, sineo1, coseo1)
    else (eo1, tem5, sineo1, coseo1)

/-- The (sineo1, coseo1) pair left by the Kepler iteration of sgp4 (the loop
runs while the correction is at least 1e-12 and the counter ktr, starting at
1, is at most 10). -/
def sgp4Kepler (satrec : SatRec) (tsince : ℝ) : ℝ × ℝ :=
  let (axnl, aynl, xl) := sgp4AxnlAynlXl satrec tsince
  let pert := sgp4Pert satrec tsince
  let u := rfmod (xl - pert.nodep) TWO_PI
  let r := sgp4KeplerIter axnl aynl u 10 (u, 9999.9, 0.0, 0.0)
  (r.2.2.1, r.2.2.2)

/-- The semi-latus rectum pl of sgp4. -/
def sgp4Pl (satrec : SatRec) (tsince : ℝ) : ℝ :=
  let (axnl, aynl, _) := sgp4AxnlAynlXl satrec tsince
  let el2 := (axnl * axnl) + (aynl * aynl)
  (sgp4Am satrec tsince) * (1.0 - el2)

/-- con41 as used by phase 7 of sgp4: recomputed from the perturbed
inclination in deep space, the stored epoch value otherwise. -/
def sgp4Con41U (satrec : SatRec) (tsince : ℝ) : ℝ :=
  if satrec.method = 'd' then
    (3.0 * (sgp4Cosip satrec tsince * sgp4Cosip satrec tsince)) - 1.0
  else satrec.con41

/-- x1mth2 as used by phase 7 of sgp4. -/
def sgp4X1mth2U (satrec : SatRec) (tsince : ℝ) : ℝ :=
  if satrec.method = 'd' then
    1.0 - (sgp4Cosip satrec tsince * sgp4Cosip satrec tsince)
  else satrec.x1mth2

/-- x7thm1 as used by phase 7 of sgp4. -/
def sgp4X7thm1U (satrec : SatRec) (tsince : ℝ) : ℝ :=
  if satrec.method = 'd' then
    (7.0 * (sgp4Cosip satrec tsince * sgp4Cosip satrec tsince)) - 1.0
  else satrec.x7thm1

/-- The corrected radius mrt of sgp4 (the decay check quantity). -/
def sgp4Mrt (satrec : SatRec) (tsince : ℝ) : ℝ :=
  let am := sgp4Am satrec tsince
  let (axnl, aynl, _) := sgp4AxnlAynlXl satrec tsince
  let (sineo1, coseo1) := sgp4Kepler satrec tsince
  let ecose := (axnl * coseo1) + (aynl * sineo1)
  let esine := (axnl * sineo1) - (aynl * coseo1)
  let el2 := (axnl * axnl) + (aynl * aynl)
  let pl := sgp4Pl satrec tsince
  let rl := am * (1.0 - ecose)
  let betal := Real.sqrt (1.0 - el2)
  let temp := esine / (1.0 + betal)
  let sinu := (am / rl) * (sineo1 - aynl - (axnl * temp))
  let cosu := (am / rl) * ((coseo1 - axnl) + (aynl * temp))
  let cos2u := 1.0 - (2.0 * sinu * sinu)
  let temp := 1.0 / pl
  let temp1 := 0.5 * J2 * temp
  let temp2 := temp1 * temp
  (rl * (1.0 - (1.5 * temp2 * betal * sgp4Con41U satrec tsince))) +
    (0.5 * temp1 * sgp4X1mth2U satrec tsince * cos2u)

/-- The position and velocity vectors produced by a successful sgp4 call. -/
def sgp4Vectors (satrec : SatRec) (tsince : ℝ) : Sgp4Result :=
  let am := sgp4Am satrec tsince
  let nm := sgp4Nm satrec tsince
  let pert := sgp4Pert satrec tsince
  let sinip := sgp4Sinip satrec tsince
  let cosip := sgp4Cosip satrec tsince
  let (axnl, aynl, _) := sgp4AxnlAynlXl satrec tsince
  let (sineo1, coseo1) := sgp4Kepler satrec tsince
  let ecose := (axnl * coseo1) + (aynl * sineo1)
  let esine := (axnl * sineo1) - (aynl * coseo1)
  let el2 := (axnl * axnl) + (aynl * aynl)
  let pl := sgp4Pl satrec tsince
  let rl := am * (1.0 - ecose)
  let rdotl := (Real.sqrt am * esine) / rl
  let rvdotl := Real.sqrt pl / rl
  let betal := Real.sqrt (1.0 - el2)
  let temp := esine / (1.0 + betal)
  let sinu := (am / rl) * (sineo1 - aynl - (axnl * temp))
  let cosu := (am / rl) * ((coseo1 - axnl) + (aynl * temp))
  let su := atan2 sinu cosu
  let sin2u := (cosu + cosu) * sinu
  let cos2u := 1.0 - (2.0 * sinu * sinu)
  let temp := 1.0 / pl
  let temp1 := 0.5 * J2 * temp
  let temp2 := temp1 * temp
  let mrt := sgp4Mrt satrec tsince
  let su := su - (0.25 * temp2 * sgp4X7thm1U satrec tsince * sin2u)
  let xnode := pert.nodep + (1.5 * temp2 * cosip * sin2u)
  let xinc := pert.xincp + (1.5 * temp2 * cosip * sinip * cos2u)
  let mvt := rdotl - ((nm * temp1 * sgp4X1mth2U satrec tsince * sin2u) / XKE)
  let rvdot := rvdotl +
    ((nm * temp1 * ((sgp4X1mth2U satrec tsince * cos2u) + (1.5 * sgp4Con41U satrec tsince))) / XKE)
  -- orientation vectors
  let sinsu := Real.sin su
  let cossu := Real.cos su
  let snod := Real.sin xnode
  let cnod := Real.cos xnode
  let sini := Real.sin xinc
  let cosi := Real.cos xinc
  let xmx := -snod * cosi
  let xmy := cnod * cosi
  let ux := (xmx * sinsu) + (cnod * cossu)
  let uy := (xmy * sinsu) + (snod * cossu)
  let uz := sini * sinsu
  let vx := (xmx * cossu) - (cnod * sinsu)
  let vy := (xmy * cossu) - (snod * sinsu)
  let vz := sini * cossu
  -- position and velocity (in km and km/sec)
  { position :=
      { x := (mrt * ux) * EARTH_RADIUS,
        y := (mrt * uy) * EARTH_RADIUS,
        z := (mrt * uz) * EARTH_RADIUS },
    velocity :=
      { x := ((mvt * ux) + (rvdot * vx)) * VKMPERSEC,
        y := ((mvt * uy) + (rvdot * vy)) * VKMPERSEC,
        z := ((mvt * uz) + (rvdot * vz)) * VKMPERSEC } }

/-- The sgp4 prediction model (function sgp4).  The returned record is the
mutated SatRec (the source takes it by mutable reference); the second
component is the Ok position/velocity result or the Err marker returned on
failure. -/
def sgp4 (satrec : SatRec) (tsince : ℝ) : SatRec × Except Sgp4Error Sgp4Result :=
  -- clear sgp4 error flag
  let s1 : SatRec := {satrec with t := tsince, error := 0}
  let sec := sgp4Sec satrec tsince
  if sec.nm ≤ 0 then ({s1 with error := 2}, Except.error Sgp4Error.FF)
  else
    let em := sgp4Em satrec tsince
    if em ≥ 1.0 ∨ em < -0.001 then ({s1 with error := 1}, Except.error Sgp4Error.FF)
    else
      let pert := sgp4Pert satrec tsince
      if satrec.method = 'd' ∧ (pert.ep < 0 ∨ pert.ep > 1) then
        ({s1 with error := 3}, Except.error Sgp4Error.FF)
      else
        let s2 := if satrec.method = 'd' then
            {s1 with aycof := sgp4Aycof satrec tsince, xlcof := sgp4Xlcof satrec tsince}
          else s1
        if sgp4Pl satrec tsince < 0 then ({s2 with error := 4}, Except.error Sgp4Error.FF)
        else
          let con41U := sgp4Con41U satrec tsince
          let x1mth2U := sgp4X1mth2U satrec tsince
          let x7thm1U := sgp4X7thm1U satrec tsince
          let s3 := if satrec.method = 'd' then
              {s2 with con41 := con41U, x1mth2 := x1mth2U, x7thm1 := x7thm1U}
            else s2
          if sgp4Mrt satrec tsince < 1 then ({s3 with error := 6}, Except.error Sgp4Error.FpFv)
          else (s3, Except.ok (sgp4Vectors satrec tsince))

/-! ### sgp4init (src/propagation/sgp4init.rs) -/

structure Sgp4InitOptions where
  opsmode : DpperOpsMode
  satn : ℝ
  epoch : ℝ
  xbstar : ℝ
  xecco : ℝ
  xargpo : ℝ
  xinclo : ℝ
  xmo : ℝ
  xno : ℝ
  xnodeo : ℝ

/-- Initialization of all SatRec coefficients (function sgp4init), ending
with the zero-time sgp4 call that primes the record.  The source mutates the
record in place and returns (); the embedding returns the final record. -/
def sgp4initZeroed (satrec : SatRec) : SatRec :=
  { satrec with
    isimp := 0, method := 'n', aycof := 0, con41 := 0, cc1 := 0, cc4 := 0,
    cc5 := 0, d2 := 0, d3 := 0, d4 := 0, delmo := 0, eta := 0, argpdot := 0,
    omgcof := 0, sinmao := 0, t := 0, t2cof := 0, t3cof := 0, t4cof := 0,
    t5cof := 0, x1mth2 := 0, x7thm1 := 0, mdot := 0, nodedot := 0,
    xlcof := 0, xmcof := 0, nodecf := 0,
    irez := 0, d2201 := 0, d2211 := 0, d3210 := 0, d3222 := 0, d4410 := 0,
    d4422 := 0, d5220 := 0, d5232 := 0, d5421 := 0, d5433 := 0, dedt := 0,
    del1 := 0, del2 := 0, del3 := 0, didt := 0, dmdt := 0, dnodt := 0,
    domdt := 0, e3 := 0, ee2 := 0, peo := 0, pgho := 0, pho := 0,
    pinco := 0, plo := 0, se2 := 0, se3 := 0, sgh2 := 0, sgh3 := 0,
    sgh4 := 0, sh2 := 0, sh3 := 0, si2 := 0, si3 := 0, sl2 := 0, sl3 := 0,
    sl4 := 0, gsto := 0, xfact := 0, xgh2 := 0, xgh3 := 0, xh2 := 0,
    xh3 := 0, xi2 := 0, xi3 := 0, xl2 := 0, xl3 := 0, xl4 := 0, xlamo := 0,
    zmol := 0, zmos := 0, atime := 0, xli := 0, xni := 0 }

/-- The perigee-dependent adjustment of the s and qoms2t constants
(sgp4init, perigees below 156 km). -/
def sgp4initSQ (ss qzms2t perige : ℝ) : ℝ × ℝ :=
  if perige < 156.0 then
    let sfour := perige - 78.0
    let sfour := if perige < 98.0 then 20.0 else sfour
    let qzms24temp := (120.0 - sfour) / EARTH_RADIUS
    let qzms24 := qzms24temp * qzms24temp * qzms24temp * qzms24temp
    ((sfour / EARTH_RADIUS) + 1.0, qzms24)
  else (ss, qzms2t)

/-- The near-Earth coefficient block of sgp4init (cc1..x7thm1 and the
secular rates), stored into the record. -/
def sgp4initS3 (s2 : SatRec) (ir : InitlResult) (isimp : ℕ)
    (sfour qzms24 : ℝ) : SatRec :=
  let ao := ir.ao
  let con42 := ir.con42
  let cosio := ir.cosio
  let cosio2 := ir.cosio2
  let omeosq := ir.omeosq
  let posq := ir.posq
  let rteosq := ir.rteosq
  let sinio := ir.sinio
  let pinvsq := 1.0 / posq
  let tsi := 1.0 / (ao - sfour)
  let eta := ao * s2.ecco * tsi
  let etasq := eta * eta
  let eeta := s2.ecco * eta
  let psisq := |1.0 - etasq|
  let coef := qzms24 * (tsi ^ (4.0 : ℝ))
  let coef1 := coef / (psisq ^ (3.5 : ℝ))
  let cc2 := coef1 * s2.no *
    ((ao * (1.0 + (1.5 * etasq) + (eeta * (4.0 + etasq)))) +
      (((0.375 * J2 * tsi) / psisq) * s2.con41 *
        (8.0 + (3.0 * etasq * (8.0 + etasq)))))
  let cc1 := s2.bstar * cc2
  let cc3 := if s2.ecco > 1.0e-4 then
      (-2.0 * coef * tsi * J3OJ2 * s2.no * sinio) / s2.ecco
    else 0.0
  let x1mth2 := 1.0 - cosio2
  let cc4 := 2.0 * s2.no * coef1 * ao * omeosq *
    (((eta * (2.0 + (0.5 * etasq))) + (s2.ecco * (0.5 + (2.0 * etasq)))) -
      (((J2 * tsi) / (ao * psisq)) *
        ((-3.0 * s2.con41 * ((1.0 - (2.0 * eeta)) + (etasq * (1.5 - (0.5 * eeta))))) +
          (0.75 * x1mth2 * ((2.0 * etasq) - (eeta * (1.0 + etasq))) *
            Real.cos (2.0 * s2.argpo)))))
  let cc5 := 2.0 * coef1 * ao * omeosq *
    (1.0 + (2.75 * (etasq + eeta)) + (eeta * etasq))
  let cosio4 := cosio2 * cosio2
  let temp1 := 1.5 * J2 * pinvsq * s2.no
  let temp2 := 0.5 * temp1 * J2 * pinvsq
  let temp3 := -0.46875 * J4 * pinvsq * pinvsq * s2.no
  let mdot := s2.no + (0.5 * temp1 * rteosq * s2.con41) +
    (0.0625 * temp2 * rteosq * ((13.0 - (78.0 * cosio2)) + (137.0 * cosio4)))
  let argpdot := (-0.5 * temp1 * con42) +
    (0.0625 * temp2 * ((7.0 - (114.0 * cosio2)) + (395.0 * cosio4))) +
    (temp3 * ((3.0 - (36.0 * cosio2)) + (49.0 * cosio4)))
  let xhdot1 := -temp1 * cosio
  let nodedot := xhdot1 +
    (((0.5 * temp2 * (4.0 - (19.0 * cosio2))) +
      (2.0 * temp3 * (3.0 - (7.0 * cosio2)))) * cosio)
  let omgcof := s2.bstar * cc3 * Real.cos s2.argpo
  let xmcof := if s2.ecco > 1.0e-4 then (-X2O3 * coef * s2.bstar) / eeta else 0.0
  let nodecf := 3.5 * omeosq * xhdot1 * cc1
  let t2cof := 1.5 * cc1
  -- sgp4fix for divide by zero with xinco = 180 deg
  let xlcof := xlcofFun sinio cosio
  let aycof := -0.5 * J3OJ2 * sinio
  let delmotemp := 1.0 + (eta * Real.cos s2.mo)
  let delmo := delmotemp * delmotemp * delmotemp
  let sinmao := Real.sin s2.mo
  let x7thm1 := (7.0 * cosio2) - 1.0
  { s2 with
    isimp := isimp, eta := eta, cc1 := cc1, x1mth2 := x1mth2,
    cc4 := cc4, cc5 := cc5, mdot := mdot, argpdot := argpdot,
    nodedot := nodedot, omgcof := omgcof, xmcof := xmcof,
    nodecf := nodecf, t2cof := t2cof, xlcof := xlcof, aycof := aycof,
    delmo := delmo, sinmao := sinmao, x7thm1 := x7thm1 }

/-- The deep-space initialization branch of sgp4init (period at least 225
minutes): dscom, the epoch dpper call, and dsinit. -/
def sgp4initDeep (s3 : SatRec) (epoch eccsq xpidot : ℝ) : SatRec :=
  let tc : ℝ := 0.0
  let inclm := s3.inclo
  let dscom_result := dscom
    { epoch := epoch, ep := s3.ecco, argpp := s3.argpo, tc := tc,
      inclp := s3.inclo, nodep := s3.nodeo, np := s3.no }
  let s4a : SatRec :=
    { s3 with
      method := 'd', isimp := 1,
      e3 := dscom_result.e3, ee2 := dscom_result.ee2,
      peo := dscom_result.peo, pgho := dscom_result.pgho,
      pho := dscom_result.pho, pinco := dscom_result.pinco,
      plo := dscom_result.plo, se2 := dscom_result.se2,
      se3 := dscom_result.se3, sgh2 := dscom_result.sgh2,
      sgh3 := dscom_result.sgh3, sgh4 := dscom_result.sgh4,
      sh2 := dscom_result.sh2, sh3 := dscom_result.sh3,
      si2 := dscom_result.si2, si3 := dscom_result.si3,
      sl2 := dscom_result.sl2, sl3 := dscom_result.sl3,
      sl4 := dscom_result.sl4,
      xgh2 := dscom_result.xgh2, xgh3 := dscom_result.xgh3,
      xgh4 := dscom_result.xgh4, xh2 := dscom_result.xh2,
      xh3 := dscom_result.xh3, xi2 := dscom_result.xi2,
      xi3 := dscom_result.xi3, xl2 := dscom_result.xl2,
      xl3 := dscom_result.xl3, xl4 := dscom_result.xl4,
      zmol := dscom_result.zmol, zmos := dscom_result.zmos }
  let dpper_result := deper s4a
    { init := s4a.init, opsmode := s4a.operationmode,
      ep := s4a.ecco, inclp := s4a.inclo, nodep := s4a.nodeo,
      argpp := s4a.argpo, mp := s4a.mo }
  let s4b : SatRec :=
    { s4a with
      ecco := dpper_result.ep, inclo := dpper_result.inclp,
      nodeo := dpper_result.nodep, argpo := dpper_result.argpp,
      mo := dpper_result.mp }
  let dsinit_result := dsinit
    { cosim := dscom_result.cosim, argpo := s4b.argpo,
      s1 := dscom_result.s1, s2 := dscom_result.s2,
      s3 := dscom_result.s3, s4 := dscom_result.s4,
      s5 := dscom_result.s5, sinim := dscom_result.sinim,
      ss1 := dscom_result.ss1, ss2 := dscom_result.ss2,
      ss3 := dscom_result.ss3, ss4 := dscom_result.ss4,
      ss5 := dscom_result.ss5, sz1 := dscom_result.sz1,
      sz3 := dscom_result.sz3, sz11 := dscom_result.sz11,
      sz13 := dscom_result.sz13, sz21 := dscom_result.sz21,
      sz23 := dscom_result.sz23, sz31 := dscom_result.sz31,
      sz33 := dscom_result.sz33, t := s4b.t, tc := tc,
      gsto := s4b.gsto, mo := s4b.mo, mdot := s4b.mdot,
      no := s4b.no, nodeo := s4b.nodeo, nodedot := s4b.nodedot,
      xpidot := xpidot, z1 := dscom_result.z1, z3 := dscom_result.z3,
      z11 := dscom_result.z11, z13 := dscom_result.z13,
      z21 := dscom_result.z21, z23 := dscom_result.z23,
      z31 := dscom_result.z31, z33 := dscom_result.z33,
      ecco := s4b.ecco, eccsq := eccsq, emsq := dscom_result.emsq,
      em := dscom_result.em, argpm := 0, inclm := inclm, mm := 0,
      nm := dscom_result.nm, nodem := 0, irez := s4b.irez,
      atime := s4b.atime, d2201 := s4b.d2201, d2211 := s4b.d2211,
      d3210 := s4b.d3210, d3222 := s4b.d3222, d4410 := s4b.d4410,
      d4422 := s4b.d4422, d5220 := s4b.d5220, d5232 := s4b.d5232,
      d5421 := s4b.d5421, d5433 := s4b.d5433, dedt := s4b.dedt,
      didt := s4b.didt, dmdt := s4b.dmdt, dnodt := s4b.dnodt,
      domdt := s4b.domdt, del1 := s4b.del1, del2 := s4b.del2,
      del3 := s4b.del3, xfact := s4b.xfact, xlamo := s4b.xlamo,
      xli := s4b.xli, xni := s4b.xni }
  { s4b with
    irez := dsinit_result.irez, atime := dsinit_result.atime,
    d2201 := dsinit_result.d2201, d2211 := dsinit_result.d2211,
    d3210 := dsinit_result.d3210, d3222 := dsinit_result.d3222,
    d4410 := dsinit_result.d4410, d4422 := dsinit_result.d4422,
    d5220 := dsinit_result.d5220, d5232 := dsinit_result.d5232,
    d5421 := dsinit_result.d5421, d5433 := dsinit_result.d5433,
    dedt := dsinit_result.dedt, didt := dsinit_result.didt,
    dmdt := dsinit_result.dmdt, dnodt := dsinit_result.dnodt,
    domdt := dsinit_result.domdt, del1 := dsinit_result.del1,
    del2 := dsinit_result.del2, del3 := dsinit_result.del3,
    xfact := dsinit_result.xfact, xlamo := dsinit_result.xlamo,
    xli := dsinit_result.xli, xni := dsinit_result.xni }

/-- The non-simple drag coefficients d2..t5cof of sgp4init. -/
def sgp4initD2 (s5 : SatRec) (ao tsi sfour : ℝ) : SatRec :=
  let cc1sq := s5.cc1 * s5.cc1
  let d2 := 4.0 * ao * tsi * cc1sq
  let temp := (d2 * tsi * s5.cc1) / 3.0
  let d3 := ((17.0 * ao) + sfour) * temp
  let d4 := 0.5 * temp * ao * tsi * ((221.0 * ao) + (31.0 * sfour)) * s5.cc1
  let t3cof := d2 + (2.0 * cc1sq)
  let t4cof := 0.25 * ((3.0 * d3) + (s5.cc1 * ((12.0 * d2) + (10.0 * cc1sq))))
  let t5cof := 0.2 *
    ((3.0 * d4) + (12.0 * s5.cc1 * d3) + (6.0 * d2 * d2) +
      (15.0 * cc1sq * ((2.0 * d2) + cc1sq)))
  { s5 with
    d2 := d2, d3 := d3, d4 := d4, t3cof := t3cof,
    t4cof := t4cof, t5cof := t5cof }

/-- The main (omeosq >= 0 or no >= 0) branch of sgp4init: near-Earth
coefficients, the deep-space branch when the period is at least 225
minutes, and the non-simple drag coefficients. -/
def sgp4initBig (s2 : SatRec) (ir : InitlResult) (epoch : ℝ) : SatRec :=
  let ss := (78.0 / EARTH_RADIUS) + 1.0
  let qzms2ttemp := (120.0 - 78.0) / EARTH_RADIUS
  let qzms2t := qzms2ttemp * qzms2ttemp * qzms2ttemp * qzms2ttemp
  let rp := ir.rp
  let ao := ir.ao
  let isimp : ℕ := if rp < (220.0 / EARTH_RADIUS + 1.0) then 1 else 0
  let perige := (rp - 1.0) * EARTH_RADIUS
  -- for perigees below 156 km, s and qoms2t are altered
  let sq := sgp4initSQ ss qzms2t perige
  let sfour := sq.1
  let qzms24 := sq.2
  let tsi := 1.0 / (ao - sfour)
  let s3 := sgp4initS3 s2 ir isimp sfour qzms24
  let xpidot := s3.argpdot + s3.nodedot
  -- deep space initialization
  let s5 :=
    if (2.0 * PI) / s3.no ≥ 225.0 then sgp4initDeep s3 epoch ir.eccsq xpidot
    else s3
  -- set variables if not deep space
  if s5.isimp ≠ 1 then sgp4initD2 s5 ao tsi sfour else s5

/-- Initialization of all SatRec coefficients (function sgp4init), ending
with the zero-time sgp4 call that primes the record.  The source mutates the
record in place and returns (); the embedding returns the final record.
The zeroing block (sgp4initZeroed) assigns xgh3 twice and never xgh4,
mirroring the source. -/
def sgp4init (satrec : SatRec) (options : Sgp4InitOptions) : SatRec :=
  let opsmode := options.opsmode
  let epoch := options.epoch
  let xbstar := options.xbstar
  let xecco := options.xecco
  let xargpo := options.xargpo
  let xinclo := options.xinclo
  let xmo := options.xmo
  let xno := options.xno
  let xnodeo := options.xnodeo
  let s0 : SatRec := sgp4initZeroed satrec
  let s1 : SatRec :=
    { s0 with
      bstar := xbstar, ecco := xecco, argpo := xargpo, inclo := xinclo,
      mo := xmo, no := xno, nodeo := xnodeo, operationmode := opsmode,
      init := DpperInit.Y, t := 0 }
  let init_result := initl
    { ecco := s1.ecco, epoch := epoch, inclo := s1.inclo,
      opsmode := s1.operationmode, no := s1.no }
  let omeosq := init_result.omeosq
  let s2 : SatRec :=
    { s1 with
      no := init_result.no, con41 := init_result.con41,
      gsto := init_result.gsto,
      a := (init_result.no * TUMIN) ^ ((-2.0 / 3.0 : ℝ)),
      alta := ((init_result.no * TUMIN) ^ ((-2.0 / 3.0 : ℝ))) * (1.0 + s1.ecco) - 1.0,
      altp := ((init_result.no * TUMIN) ^ ((-2.0 / 3.0 : ℝ))) * (1.0 - s1.ecco) - 1.0,
      error := 0 }
  -- sgp4fix: the sub-orbital rp < 1.0 check that set error = 5 is removed
  -- in the source (commented out); nothing here reports error 5
  let sBig : SatRec :=
    if omeosq ≥ 0 ∨ s2.no ≥ 0 then sgp4initBig s2 init_result epoch
    else s2
  -- finally propagate to zero epoch to initialize all others
  let s_final := (sgp4 sBig 0.0).1
  { s_final with init := DpperInit.N }

/-! ### Frame reasoning for sgp4 -/

/-- Every branch of sgp4 returns the input record with at most t, error and
the five periodic coefficients aycof, xlcof, con41, x1mth2, x7thm1
reassigned; every other field, the integrator state included, is returned
unchanged. -/
theorem sgp4_fst_eq (s : SatRec) (ts : ℝ) :
    (sgp4 s ts).1 =
      { s with
        t := ts, error := (sgp4 s ts).1.error,
        aycof := (sgp4 s ts).1.aycof, xlcof := (sgp4 s ts).1.xlcof,
        con41 := (sgp4 s ts).1.con41, x1mth2 := (sgp4 s ts).1.x1mth2,
        x7thm1 := (sgp4 s ts).1.x7thm1 } := by
  simp only [sgp4]
  split_ifs <;> rfl

theorem sgp4_atime_eq (s : SatRec) (ts : ℝ) : (sgp4 s ts).1.atime = s.atime := by
  conv_lhs => rw [sgp4_fst_eq s ts]

theorem sgp4_xli_eq (s : SatRec) (ts : ℝ) : (sgp4 s ts).1.xli = s.xli := by
  conv_lhs => rw [sgp4_fst_eq s ts]

theorem sgp4_xni_eq (s : SatRec) (ts : ℝ) : (sgp4 s ts).1.xni = s.xni := by
  conv_lhs => rw [sgp4_fst_eq s ts]

/-- On a near-Earth record ('n' method) sgp4 also leaves the five periodic
coefficients untouched. -/
theorem sgp4_coeffs_of_near_earth (s : SatRec) (ts : ℝ) (h : s.method ≠ 'd') :
    (sgp4 s ts).1.aycof = s.aycof ∧ (sgp4 s ts).1.xlcof = s.xlcof ∧
    (sgp4 s ts).1.con41 = s.con41 ∧ (sgp4 s ts).1.x1mth2 = s.x1mth2 ∧
    (sgp4 s ts).1.x7thm1 = s.x7thm1 := by
  simp only [sgp4]
  split_ifs <;> first
    | exact ⟨rfl, rfl, rfl, rfl, rfl⟩
    | simp_all

/-- An all-zero satellite record (near-Earth method, improved mode), used as
a concrete instantiation point. -/
def zeroRec : SatRec :=
  { isimp := 0, method := 'n', aycof := 0, con41 := 0, cc1 := 0, cc4 := 0,
    cc5 := 0, d2 := 0, d3 := 0, d4 := 0, delmo := 0, eta := 0, argpdot := 0,
    omgcof := 0, sinmao := 0, epochyr := 0, t := 0, t2cof := 0, t3cof := 0,
    t4cof := 0, t5cof := 0, x1mth2 := 0, x7thm1 := 0, mdot := 0, nddot := 0,
    ndot := 0, nodedot := 0, xlcof := 0, xmcof := 0, nodecf := 0,
    jdsatepoch := 0, irez := 0, d2201 := 0, d2211 := 0, d3210 := 0,
    d3222 := 0, d4410 := 0, d4422 := 0, d5220 := 0, d5232 := 0, d5421 := 0,
    d5433 := 0, dedt := 0, del1 := 0, del2 := 0, del3 := 0, didt := 0,
    dmdt := 0, dnodt := 0, domdt := 0, e3 := 0, ee2 := 0, peo := 0,
    pgho := 0, pho := 0, pinco := 0, plo := 0, se2 := 0, se3 := 0, sgh2 := 0,
    sgh3 := 0, sgh4 := 0, sh2 := 0, sh3 := 0, si2 := 0, si3 := 0, sl2 := 0,
    sl3 := 0, sl4 := 0, gsto := 0, xfact := 0, xgh2 := 0, xgh3 := 0,
    xgh4 := 0, xh3 := 0, xi2 := 0, xh2 := 0, xi3 := 0, xl2 := 0, xlamo := 0,
    xl3 := 0, xl4 := 0, zmol := 0, zmos := 0, xni := 0, atime := 0, xli := 0,
    epochdays := 0, bstar := 0, ecco := 0, argpo := 0, inclo := 0, mo := 0,
    no := 0, nodeo := 0, operationmode := DpperOpsMode.I,
    init := DpperInit.N, a := 0, alta := 0, altp := 0, error := 0 }

/-- C1 (amended): a call to sgp4 mutates only t, error and, in the
deep-space path, the five periodic coefficients aycof, xlcof, con41, x1mth2
and x7thm1 recomputed from the perturbed inclination; the integrator fields
atime, xli, xni are never written back by sgp4 (the dspace results for them
are discarded), and on a near-Earth record the five coefficients are
untouched as well. -/
theorem sgp4_frame_effect (s : SatRec) (ts : ℝ) :
    ((sgp4 s ts).1 =
      { s with
        t := ts, error := (sgp4 s ts).1.error,
        aycof := (sgp4 s ts).1.aycof, xlcof := (sgp4 s ts).1.xlcof,
        con41 := (sgp4 s ts).1.con41, x1mth2 := (sgp4 s ts).1.x1mth2,
        x7thm1 := (sgp4 s ts).1.x7thm1 }) ∧
    (sgp4 s ts).1.atime = s.atime ∧ (sgp4 s ts).1.xli = s.xli ∧
    (sgp4 s ts).1.xni = s.xni ∧
    (s.method ≠ 'd' →
      (sgp4 s ts).1.aycof = s.aycof ∧ (sgp4 s ts).1.xlcof = s.xlcof ∧
      (sgp4 s ts).1.con41 = s.con41 ∧ (sgp4 s ts).1.x1mth2 = s.x1mth2 ∧
      (sgp4 s ts).1.x7thm1 = s.x7thm1) :=
  ⟨sgp4_fst_eq s ts, sgp4_atime_eq s ts, sgp4_xli_eq s ts, sgp4_xni_eq s ts,
    fun h => sgp4_coeffs_of_near_earth s ts h⟩

/-- Witness for C1's amended theorem at the concrete all-zero near-Earth
record and time 0. -/
theorem sgp4_frame_effect_witness :
    zeroRec.method ≠ 'd' ∧
    ((sgp4 zeroRec 0).1.aycof = zeroRec.aycof ∧
      (sgp4 zeroRec 0).1.xlcof = zeroRec.xlcof ∧
      (sgp4 zeroRec 0).1.con41 = zeroRec.con41 ∧
      (sgp4 zeroRec 0).1.x1mth2 = zeroRec.x1mth2 ∧
      (sgp4 zeroRec 0).1.x7thm1 = zeroRec.x7thm1) :=
  ⟨by decide, (sgp4_frame_effect zeroRec 0).2.2.2.2 (by decide)⟩

/-- A concrete deep-space synchronous-resonance record: all series
coefficients and rates zero, so every stage of sgp4 evaluates in closed
form; the five periodic coefficients hold sentinel values and the integrator
state is non-trivial. -/
def recC1 : SatRec :=
  { zeroRec with
    isimp := 1, method := 'd', irez := 1, ecco := 0.5, no := XKE,
    atime := 5, xli := 3, xni := 7,
    aycof := 7, xlcof := 9, con41 := 5, x1mth2 := 4, x7thm1 := 3 }

theorem XKE_pos : 0 < XKE := by norm_num [XKE]

/-- If the entry state is already within one step of t, the loop exits at
once with the dot terms of the single pass. -/
theorem dspaceLoop_of_near (o : DspaceOption) (st : DsLoopSt)
    (h : dspaceInv o.t st.atime) (hnear : ¬ STEPP ≤ |o.t - st.atime|) :
    dspaceLoop o st h =
      ⟨st, (dspaceDots o st).1, (dspaceDots o st).2.1, (dspaceDots o st).2.2,
        o.t - st.atime⟩ := by
  rw [dspaceLoop]
  simp only [dif_neg hnear]

/-- Closed-form run of dspace at t = 0 for a synchronous-resonance option
set whose resonance coefficients, rates and angles are all zero: the
integrator resets to the epoch and exits immediately. -/
theorem dspace_eval_sync_zero (o : DspaceOption)
    (hirez : o.irez = 1) (hd1 : o.del1 = 0) (hd2 : o.del2 = 0)
    (hd3 : o.del3 = 0) (hxf : o.xfact = 0) (ht : o.t = 0) (htc : o.tc = 0)
    (hg : o.gsto = 0) (hxl : o.xlamo = 0) :
    dspace o =
      { atime := 0, em := o.em, argpm := o.argpm, inclm := o.inclm, xli := 0,
        mm := -o.nodem - o.argpm, xni := o.no, nodem := o.nodem, dndt := 0,
        nm := o.no } := by
  have hentry : dspaceEntry o = ⟨0, 0, o.no⟩ := by
    rw [dspaceEntry, if_pos]
    · rw [hxl]
    · exact Or.inr (Or.inl (by rw [ht]; simp))
  have hdots : dspaceDots o ⟨0, 0, o.no⟩ = (0, o.no + o.xfact, 0) := by
    rw [dspaceDots, if_pos (by rw [hirez]; omega)]
    simp [hd1, hd2, hd3]
  have hloop : dspaceLoopRun o = ⟨⟨0, 0, o.no⟩, 0, o.no + o.xfact, 0, o.t⟩ := by
    rw [dspaceLoopRun]
    have h1 : dspaceLoop o (dspaceEntry o) (dspaceEntry_inv o) =
        dspaceLoop o ⟨0, 0, o.no⟩ (hentry ▸ dspaceEntry_inv o) := by
      congr 1
    rw [h1, dspaceLoop_of_near]
    · rw [hdots]
      norm_num [ht]
    · norm_num [ht, STEPP]
  rw [dspace]
  simp only [hloop, hirez, ht, htc, hg, hxf]
  norm_num [rfmod_zero]

set_option maxHeartbeats 1000000 in
theorem recC1_sec :
    sgp4Sec recC1 0 =
      { em := 0.5, argpm := 0, inclm := 0, mm := 0, nodem := 0, nm := XKE,
        tempa := 1, tempe := 0, templ := 0 } := by
  rw [sgp4Sec]
  norm_num [recC1, zeroRec]
  rw [dspace_eval_sync_zero] <;> norm_num

theorem PI_pos : 0 < PI := Real.pi_pos

theorem recC1_em : sgp4Em recC1 0 = 0.5 := by
  simp only [sgp4Em, recC1_sec]
  norm_num

theorem recC1_clamped : sgp4EmClamped recC1 0 = 0.5 := by
  simp only [sgp4EmClamped, recC1_em]
  norm_num

theorem recC1_angles : sgp4Angles recC1 0 = (0, 0, 0) := by
  simp only [sgp4Angles, recC1_sec]
  norm_num [rfmod_zero]

/-- For a record whose lunar/solar series coefficients are all zero, the
deper corrections vanish identically. -/
theorem deperPerts_zero (s : SatRec) (o : DpperOption)
    (hse2 : s.se2 = 0) (hse3 : s.se3 = 0) (hsi2 : s.si2 = 0) (hsi3 : s.si3 = 0)
    (hsl2 : s.sl2 = 0) (hsl3 : s.sl3 = 0) (hsl4 : s.sl4 = 0)
    (hsgh2 : s.sgh2 = 0) (hsgh3 : s.sgh3 = 0) (hsgh4 : s.sgh4 = 0)
    (hsh2 : s.sh2 = 0) (hsh3 : s.sh3 = 0)
    (hee2 : s.ee2 = 0) (he3 : s.e3 = 0) (hxi2 : s.xi2 = 0) (hxi3 : s.xi3 = 0)
    (hxl2 : s.xl2 = 0) (hxl3 : s.xl3 = 0) (hxl4 : s.xl4 = 0)
    (hxgh2 : s.xgh2 = 0) (hxgh3 : s.xgh3 = 0) (hxgh4 : s.xgh4 = 0)
    (hxh2 : s.xh2 = 0) (hxh3 : s.xh3 = 0) :
    deperPerts s o = (0, 0, 0, 0, 0) := by
  rw [deperPerts]
  simp [hse2, hse3, hsi2, hsi3, hsl2, hsl3, hsl4, hsgh2, hsgh3, hsgh4, hsh2,
    hsh3, hee2, he3, hxi2, hxi3, hxl2, hxl3, hxl4, hxgh2, hxgh3, hxgh4, hxh2,
    hxh3]

/-- A propagation-phase deper call on a record whose series coefficients and
epoch baselines are all zero, at the zero element set, returns the elements
unchanged. -/
theorem deper_eval_series_zero (s : SatRec) (om : DpperOpsMode) (ep : ℝ)
    (hse2 : s.se2 = 0) (hse3 : s.se3 = 0) (hsi2 : s.si2 = 0) (hsi3 : s.si3 = 0)
    (hsl2 : s.sl2 = 0) (hsl3 : s.sl3 = 0) (hsl4 : s.sl4 = 0)
    (hsgh2 : s.sgh2 = 0) (hsgh3 : s.sgh3 = 0) (hsgh4 : s.sgh4 = 0)
    (hsh2 : s.sh2 = 0) (hsh3 : s.sh3 = 0)
    (hee2 : s.ee2 = 0) (he3 : s.e3 = 0) (hxi2 : s.xi2 = 0) (hxi3 : s.xi3 = 0)
    (hxl2 : s.xl2 = 0) (hxl3 : s.xl3 = 0) (hxl4 : s.xl4 = 0)
    (hxgh2 : s.xgh2 = 0) (hxgh3 : s.xgh3 = 0) (hxgh4 : s.xgh4 = 0)
    (hxh2 : s.xh2 = 0) (hxh3 : s.xh3 = 0)
    (hpeo : s.peo = 0) (hpinco : s.pinco = 0) (hplo : s.plo = 0)
    (hpgho : s.pgho = 0) (hpho : s.pho = 0) :
    deper s
      { init := DpperInit.N, opsmode := om, ep := ep, inclp := 0,
        nodep := 0, argpp := 0, mp := 0 } =
      { ep := ep, inclp := 0, nodep := 0, argpp := 0, mp := 0 } := by
  rw [deper]
  rw [deperPerts_zero s _ hse2 hse3 hsi2 hsi3 hsl2 hsl3 hsl4 hsgh2 hsgh3
    hsgh4 hsh2 hsh3 hee2 he3 hxi2 hxi3 hxl2 hxl3 hxl4 hxgh2 hxgh3 hxgh4 hxh2
    hxh3]
  norm_num [hpeo, hpinco, hplo, hpgho, hpho, rfmod_zero, atan2_zero_zero,
    PI_pos.not_lt]

set_option maxHeartbeats 1000000 in
theorem recC1_pert :
    sgp4Pert recC1 0 = { ep := 0.5, xincp := 0, nodep := 0, argpp := 0, mp := 0 } := by
  rw [sgp4Pert]
  norm_num [recC1_angles, recC1_clamped, recC1_sec,
    show recC1.method = 'd' from rfl]
  rw [deper_eval_series_zero] <;> try rfl
  norm_num

theorem recC1_aycof : sgp4Aycof recC1 0 = 0 := by
  rw [sgp4Aycof, if_pos (show recC1.method = 'd' from rfl)]
  simp [sgp4Sinip, recC1_pert]

/-- C1 counterexample: on this concrete deep-space synchronous-resonance
record the call sgp4 at t = 0 overwrites the derived coefficient aycof
(7 becomes 0), while the integrator fields atime, xli, xni keep their input
values 5, 3, 7 instead of being updated by the integration (the reference
reset would set atime to 0). -/
theorem sgp4_deep_space_mutation_counterexample :
    recC1.method = 'd' ∧ recC1.irez = 1 ∧ recC1.aycof = 7 ∧
    (sgp4 recC1 0).1.aycof = 0 ∧
    (sgp4 recC1 0).1.atime = 5 ∧ (sgp4 recC1 0).1.xli = 3 ∧
    (sgp4 recC1 0).1.xni = 7 := by
  have h1 : ¬ ((sgp4Sec recC1 0).nm ≤ 0) := by
    rw [recC1_sec]
    norm_num [XKE]
  have h2 : ¬ (sgp4Em recC1 0 ≥ 1.0 ∨ sgp4Em recC1 0 < -0.001) := by
    rw [recC1_em]
    norm_num
  have h3 : ¬ (recC1.method = 'd' ∧
      ((sgp4Pert recC1 0).ep < 0 ∨ (sgp4Pert recC1 0).ep > 1)) := by
    rw [recC1_pert]
    norm_num
  refine ⟨rfl, rfl, rfl, ?_, sgp4_atime_eq recC1 0, sgp4_xli_eq recC1 0,
    sgp4_xni_eq recC1 0⟩
  simp only [sgp4, if_neg h1, if_neg h2, if_neg h3,
    if_pos (show recC1.method = 'd' from rfl)]
  split_ifs <;> simp [recC1_aycof]

/-! ### C2: error taxonomy of sgp4 -/

theorem sgp4EmClamped_ge (s : SatRec) (ts : ℝ)
    (h : ¬ (sgp4Em s ts ≥ 1.0 ∨ sgp4Em s ts < -0.001)) :
    sgp4EmClamped s ts ≥ 1.0e-6 := by
  rw [sgp4EmClamped]
  split_ifs with h'
  · norm_num
  · linarith [not_lt.mp h']

/-- C2: each sgp4 call either succeeds with error 0 and the Ok vector pair,
or returns Err with exactly the error code of the first failing check, the
checks being tested in the order 2 (nm not positive), 1 (drag-updated
eccentricity out of range), 3 (perturbed eccentricity out of range, reached
only in the deep-space path), 4 (negative semi-latus rectum), 6 (decay);
when the eccentricity check passes the eccentricity used downstream is
clamped to at least 1e-6, and every nonzero error code returns no vector. -/
theorem sgp4_error_taxonomy (s : SatRec) (ts : ℝ) :
    ((sgp4 s ts).1.error = 0 ↔ (sgp4 s ts).2 = Except.ok (sgp4Vectors s ts)) ∧
    ((sgp4 s ts).1.error = 2 ↔ (sgp4Sec s ts).nm ≤ 0) ∧
    ((sgp4 s ts).1.error = 1 ↔
      (¬ (sgp4Sec s ts).nm ≤ 0 ∧
        (sgp4Em s ts ≥ 1.0 ∨ sgp4Em s ts < -0.001))) ∧
    ((sgp4 s ts).1.error = 3 ↔
      (¬ (sgp4Sec s ts).nm ≤ 0 ∧
        ¬ (sgp4Em s ts ≥ 1.0 ∨ sgp4Em s ts < -0.001) ∧
        (s.method = 'd' ∧ ((sgp4Pert s ts).ep < 0 ∨ (sgp4Pert s ts).ep > 1)))) ∧
    ((sgp4 s ts).1.error = 4 ↔
      (¬ (sgp4Sec s ts).nm ≤ 0 ∧
        ¬ (sgp4Em s ts ≥ 1.0 ∨ sgp4Em s ts < -0.001) ∧
        ¬ (s.method = 'd' ∧ ((sgp4Pert s ts).ep < 0 ∨ (sgp4Pert s ts).ep > 1)) ∧
        sgp4Pl s ts < 0)) ∧
    ((sgp4 s ts).1.error = 6 ↔
      (¬ (sgp4Sec s ts).nm ≤ 0 ∧
        ¬ (sgp4Em s ts ≥ 1.0 ∨ sgp4Em s ts < -0.001) ∧
        ¬ (s.method = 'd' ∧ ((sgp4Pert s ts).ep < 0 ∨ (sgp4Pert s ts).ep > 1)) ∧
        ¬ sgp4Pl s ts < 0 ∧ sgp4Mrt s ts < 1)) ∧
    (¬ (sgp4Em s ts ≥ 1.0 ∨ sgp4Em s ts < -0.001) →
      sgp4EmClamped s ts ≥ 1.0e-6) ∧
    ((sgp4 s ts).1.error ≠ 0 → ∀ v, (sgp4 s ts).2 ≠ Except.ok v) := by
  have hsplit : ∀ p q r u v w x y : Prop, p → (q ∧ r ∧ u ∧ v ∧ w ∧ x ∧ y) →
      (q ∧ r ∧ u ∧ v ∧ w ∧ x ∧ p ∧ y) := by
    tauto
  refine hsplit _ _ _ _ _ _ _ _ (sgp4EmClamped_ge s ts) ?_
  by_cases h1 : (sgp4Sec s ts).nm ≤ 0
  · simp [sgp4, h1]
  · by_cases h2 : sgp4Em s ts ≥ 1.0 ∨ sgp4Em s ts < -0.001
    · simp [sgp4, h1, h2]
    · by_cases h3 : s.method = 'd' ∧ ((sgp4Pert s ts).ep < 0 ∨ (sgp4Pert s ts).ep > 1)
      · simp [sgp4, h1, h2, h3]
      · by_cases h4 : sgp4Pl s ts < 0
        · simp [sgp4, h1, h2, h3, h4]
        · by_cases h5 : sgp4Mrt s ts < 1
          · simp [sgp4, h1, h2, h3, h4, h5]
          · simp [sgp4, h1, h2, h3, h4, h5, apply_ite SatRec.error]

/-- Witness for C2 at the concrete all-zero record and time 0. -/
theorem sgp4_error_taxonomy_witness :
    ((sgp4 zeroRec 0).1.error = 0 ↔
      (sgp4 zeroRec 0).2 = Except.ok (sgp4Vectors zeroRec 0)) ∧
    ((sgp4 zeroRec 0).1.error = 2 ↔ (sgp4Sec zeroRec 0).nm ≤ 0) ∧
    ((sgp4 zeroRec 0).1.error = 1 ↔
      (¬ (sgp4Sec zeroRec 0).nm ≤ 0 ∧
        (sgp4Em zeroRec 0 ≥ 1.0 ∨ sgp4Em zeroRec 0 < -0.001))) ∧
    ((sgp4 zeroRec 0).1.error = 3 ↔
      (¬ (sgp4Sec zeroRec 0).nm ≤ 0 ∧
        ¬ (sgp4Em zeroRec 0 ≥ 1.0 ∨ sgp4Em zeroRec 0 < -0.001) ∧
        (zeroRec.method = 'd' ∧
          ((sgp4Pert zeroRec 0).ep < 0 ∨ (sgp4Pert zeroRec 0).ep > 1)))) ∧
    ((sgp4 zeroRec 0).1.error = 4 ↔
      (¬ (sgp4Sec zeroRec 0).nm ≤ 0 ∧
        ¬ (sgp4Em zeroRec 0 ≥ 1.0 ∨ sgp4Em zeroRec 0 < -0.001) ∧
        ¬ (zeroRec.method = 'd' ∧
          ((sgp4Pert zeroRec 0).ep < 0 ∨ (sgp4Pert zeroRec 0).ep > 1)) ∧
        sgp4Pl zeroRec 0 < 0)) ∧
    ((sgp4 zeroRec 0).1.error = 6 ↔
      (¬ (sgp4Sec zeroRec 0).nm ≤ 0 ∧
        ¬ (sgp4Em zeroRec 0 ≥ 1.0 ∨ sgp4Em zeroRec 0 < -0.001) ∧
        ¬ (zeroRec.method = 'd' ∧
          ((sgp4Pert zeroRec 0).ep < 0 ∨ (sgp4Pert zeroRec 0).ep > 1)) ∧
        ¬ sgp4Pl zeroRec 0 < 0 ∧ sgp4Mrt zeroRec 0 < 1)) ∧
    (¬ (sgp4Em zeroRec 0 ≥ 1.0 ∨ sgp4Em zeroRec 0 < -0.001) →
      sgp4EmClamped zeroRec 0 ≥ 1.0e-6) ∧
    ((sgp4 zeroRec 0).1.error ≠ 0 → ∀ v, (sgp4 zeroRec 0).2 ≠ Except.ok v) :=
  sgp4_error_taxonomy zeroRec 0

/-! ### C3: error code 5 is never produced -/

theorem sgp4_error_ne_five (s : SatRec) (ts : ℝ) : (sgp4 s ts).1.error ≠ 5 := by
  simp only [sgp4]
  split_ifs <;> simp [apply_ite SatRec.error]

theorem sgp4init_error_ne_five (s : SatRec) (o : Sgp4InitOptions) :
    (sgp4init s o).error ≠ 5 := by
  simp only [sgp4init]
  exact sgp4_error_ne_five _ _

/-- The sub-orbital initl input used to refute the error-5 claim: a
near-circular option set with eccentricity one half and a mean motion of one
radian per time unit scale (no = XKE), whose perigee radius is below one
Earth radius. -/
def initlOptsC3 : InitOptions :=
  { ecco := 0.5, epoch := 0, inclo := 0, opsmode := DpperOpsMode.I, no := XKE }

/-- The corresponding sgp4init options. -/
def optsC3 : Sgp4InitOptions :=
  { opsmode := DpperOpsMode.I, satn := 0, epoch := 0, xbstar := 0,
    xecco := 0.5, xargpo := 0, xinclo := 0, xmo := 0, xno := XKE, xnodeo := 0 }

/-- Bound on the un-Kozai'd semi-major axis times (1 - ecco) for ecco = 0.5
and an initial ak of exactly 1, given a bound on the d1 coefficient. -/
theorem unkozai_ao_half_lt_one (a : ℝ) (h0 : 0 < a) (h1 : a ≤ 0.0026) :
    (XKE / (XKE / (1 + a /
      ((1 - a * a - a * (1 / 3 + 134 * a * a / 81)) *
        (1 - a * a - a * (1 / 3 + 134 * a * a / 81)))))) ^ X2O3 * (1 / 2)
      < 1 := by
  have hXKE : (0:ℝ) < XKE := XKE_pos
  set b : ℝ := 1 - a * a - a * (1 / 3 + 134 * a * a / 81) with hb
  have hbpos : (0.9:ℝ) ≤ b := by
    rw [hb]
    nlinarith
  have hble : b ≤ 1 := by
    rw [hb]
    nlinarith
  have hdp : 0 < a / (b * b) := by positivity
  have hdp2 : a / (b * b) ≤ 0.0033 := by
    rw [div_le_iff₀ (by positivity)]
    nlinarith
  have hc : (1 + a / (b * b)) ≠ 0 := by positivity
  have hsimp : XKE / (XKE / (1 + a / (b * b))) = 1 + a / (b * b) := by
    field_simp
    ring
  rw [hsimp]
  have h1b : (1:ℝ) ≤ 1 + a / (b * b) := by linarith
  have hpow := Real.rpow_le_rpow_of_exponent_le h1b
    (show X2O3 ≤ 1 by norm_num [X2O3])
  rw [Real.rpow_one] at hpow
  nlinarith [hpow]

theorem sqrt_three_ge : (1.7:ℝ) ≤ Real.sqrt 3 :=
  (Real.le_sqrt (by norm_num) (by norm_num)).mpr (by norm_num)

theorem sqrt_four_eq : Real.sqrt 4 = 2 := by
  rw [show (4:ℝ) = 2 ^ 2 by norm_num, Real.sqrt_sq (by norm_num : (0:ℝ) ≤ 2)]

theorem c3_rp_lt_one : (initl initlOptsC3).rp < 1 := by
  simp only [initl, initlOptsC3]
  norm_num [div_self (show XKE ≠ 0 by norm_num [XKE]), Real.one_rpow,
    sqrt_four_eq, J2]
  apply unkozai_ao_half_lt_one
  · positivity
  · rw [div_le_iff₀ (by positivity)]
    nlinarith [sqrt_three_ge]

/-- C3 counterexample: initializing with the sub-orbital element set of
optsC3 (perigee radius rp below one Earth radius, first conjunct) does not
set error 5: the rp check of sgp4init is commented out in the source, so no
code path assigns error code 5. -/
theorem error5_counterexample :
    (initl initlOptsC3).rp < 1 ∧ (sgp4init zeroRec optsC3).error ≠ 5 :=
  ⟨c3_rp_lt_one, sgp4init_error_ne_five zeroRec optsC3⟩

/-- C3 (amended): the sub-orbital check that reported error 5 is removed
from sgp4init (commented out as an sgp4fix), so neither sgp4init nor sgp4
ever reports error code 5; only the failure modes 1, 2, 3, 4, 6 can be
signalled. -/
theorem error5_never_signalled (s : SatRec) (o : Sgp4InitOptions) (ts : ℝ) :
    (sgp4init s o).error ≠ 5 ∧ (sgp4 s ts).1.error ≠ 5 :=
  ⟨sgp4init_error_ne_five s o, sgp4_error_ne_five s ts⟩

/-- Witness for C3's amended theorem at concrete inputs. -/
theorem error5_never_signalled_witness :
    (sgp4init zeroRec optsC3).error ≠ 5 ∧ (sgp4 zeroRec 0).1.error ≠ 5 :=
  error5_never_signalled zeroRec optsC3 0

/-! ### C4: the resonance angle xlamo of dsinit -/

theorem TWO_PI_pos : (0:ℝ) < TWO_PI := by
  rw [TWO_PI, PI]
  nlinarith [Real.pi_pos]

/-- The Rust remainder keeps the dividend's sign: for a positive modulus the
result lies strictly between -y and y. -/
theorem rfmod_bounds (x y : ℝ) (hy : 0 < y) : -y < rfmod x y ∧ rfmod x y < y := by
  have hx : x / y * y = x := div_mul_cancel₀ x hy.ne'
  rw [rfmod, rtrunc]
  split_ifs with h
  · have h1 := Int.floor_le (x / y)
    have h2 := Int.lt_floor_add_one (x / y)
    have h1' : (⌊x / y⌋ : ℝ) * y ≤ x / y * y := mul_le_mul_of_nonneg_right h1 hy.le
    have h2' : x / y * y < ((⌊x / y⌋ : ℝ) + 1) * y := by
      apply mul_lt_mul_of_pos_right h2 hy
    rw [hx] at h1' h2'
    constructor <;> nlinarith
  · have h1 := Int.le_ceil (x / y)
    have h2 := Int.ceil_lt_add_one (x / y)
    have h1' : x / y * y ≤ (⌈x / y⌉ : ℝ) * y := mul_le_mul_of_nonneg_right h1 hy.le
    have h2' : ((⌈x / y⌉ : ℝ)) * y < (x / y + 1) * y := by
      apply mul_lt_mul_of_pos_right ?_ hy
      exact_mod_cast h2
    rw [hx] at h1'
    constructor <;> nlinarith

theorem dsinitIrez_cases (nm em : ℝ) :
    dsinitIrez nm em = 0 ∨ dsinitIrez nm em = 1 ∨ dsinitIrez nm em = 2 := by
  rw [dsinitIrez]
  split_ifs <;> simp

theorem dsinit_irez_eq (o : DsInitOption) :
    (dsinit o).irez = dsinitIrez o.nm o.em := by
  rw [dsinit]
  rcases dsinitIrez_cases o.nm o.em with h | h | h <;> rw [h] <;> rfl

theorem dsinit_xlamo_eq (o : DsInitOption) :
    (dsinit o).xlamo =
      if dsinitIrez o.nm o.em = 2 then
        rfmod ((o.mo + o.nodeo + o.nodeo) -
          (dsinitTheta o.gsto o.tc + dsinitTheta o.gsto o.tc)) TWO_PI
      else if dsinitIrez o.nm o.em = 1 then
        rfmod ((o.mo + o.nodeo + o.argpo) - dsinitTheta o.gsto o.tc) TWO_PI
      else o.xlamo := by
  rw [dsinit]
  rcases dsinitIrez_cases o.nm o.em with h | h | h <;> rw [h] <;> rfl

/-- C4 (amended): when dsinit detects a resonance, the resonance angle is
xlamo = (mo + 2 nodeo - 2 theta) mod 2 pi for the half-day class (irez = 2)
and xlamo = (mo + nodeo + argpo - theta) mod 2 pi for the synchronous class
(irez = 1), where theta is the Greenwich sidereal time angle and mod is the
sign-preserving Rust remainder; consequently xlamo lies in (-2 pi, 2 pi),
not necessarily in [0, 2 pi). -/
theorem dsinit_xlamo_formula (o : DsInitOption) :
    ((dsinit o).irez = 2 →
      (dsinit o).xlamo =
        rfmod ((o.mo + 2 * o.nodeo) - 2 * dsinitTheta o.gsto o.tc) TWO_PI) ∧
    ((dsinit o).irez = 1 →
      (dsinit o).xlamo =
        rfmod ((o.mo + o.nodeo + o.argpo) - dsinitTheta o.gsto o.tc) TWO_PI) ∧
    ((dsinit o).irez ≠ 0 →
      -TWO_PI < (dsinit o).xlamo ∧ (dsinit o).xlamo < TWO_PI) := by
  rw [dsinit_irez_eq, dsinit_xlamo_eq]
  refine ⟨fun h => ?_, fun h => ?_, fun h => ?_⟩
  · rw [if_pos h]
    exact congrArg (fun z => rfmod z TWO_PI) (by ring)
  · have h2 : ¬ dsinitIrez o.nm o.em = 2 := by omega
    rw [if_neg h2, if_pos h]
  · by_cases h2 : dsinitIrez o.nm o.em = 2
    · rw [if_pos h2]
      exact rfmod_bounds _ _ TWO_PI_pos
    · by_cases h1 : dsinitIrez o.nm o.em = 1
      · rw [if_neg h2, if_pos h1]
        exact rfmod_bounds _ _ TWO_PI_pos
      · rcases dsinitIrez_cases o.nm o.em with h0 | h0 | h0
        · exact absurd h0 h
        · exact absurd h0 h1
        · exact absurd h0 h2

/-- A synchronous-resonance dsinit input (nm = 0.004 rad/min) with a
nonzero argument of perigee and a sidereal angle of 3 rad. -/
def optsC4 : DsInitOption :=
  { cosim := 0, argpo := 1, s1 := 0, s2 := 0, s3 := 0, s4 := 0, s5 := 0,
    sinim := 0, ss1 := 0, ss2 := 0, ss3 := 0, ss4 := 0, ss5 := 0,
    sz1 := 0, sz3 := 0, sz11 := 0, sz13 := 0, sz21 := 0, sz23 := 0,
    sz31 := 0, sz33 := 0, t := 0, tc := 0, gsto := 3, mo := 0, mdot := 0,
    no := 0, nodeo := 0, nodedot := 0, xpidot := 0,
    z1 := 0, z3 := 0, z11 := 0, z13 := 0, z21 := 0, z23 := 0,
    z31 := 0, z33 := 0, ecco := 0, eccsq := 0, emsq := 0, em := 0,
    argpm := 0, inclm := 0, mm := 0, nm := 0.004, nodem := 0,
    irez := 0, atime := 0,
    d2201 := 0, d2211 := 0, d3210 := 0, d3222 := 0, d4410 := 0, d4422 := 0,
    d5220 := 0, d5232 := 0, d5421 := 0, d5433 := 0,
    dedt := 0, didt := 0, dmdt := 0, dnodt := 0, domdt := 0,
    del1 := 0, del2 := 0, del3 := 0, xfact := 0, xlamo := 0,
    xli := 0, xni := 0 }

theorem dsinitIrez_optsC4 : dsinitIrez optsC4.nm optsC4.em = 1 := by
  rw [show optsC4.nm = (0.004:ℝ) from rfl, show optsC4.em = (0:ℝ) from rfl,
    dsinitIrez]
  norm_num

theorem dsinitTheta_optsC4 : dsinitTheta optsC4.gsto optsC4.tc = 3 := by
  have h2pi : (3:ℝ) < TWO_PI := by
    rw [TWO_PI, PI]
    nlinarith [Real.pi_gt_three]
  rw [dsinitTheta, show optsC4.gsto = (3:ℝ) from rfl,
    show optsC4.tc = (0:ℝ) from rfl,
    show (3:ℝ) + 0 * RPTIM = 3 by ring]
  exact rfmod_of_nonneg_of_lt (by norm_num) TWO_PI_pos h2pi

/-- C4 counterexample: for a synchronous-resonance input with argpo = 1,
gsto = 3, tc = 0 and mo = nodeo = 0, the code computes
xlamo = ((mo + nodeo + argpo) - theta) mod 2 pi = -2, which differs from
the claim's k = 1 formula (mo + nodeo - theta) mod 2 pi = -3 and is
negative, hence not in [0, 2 pi). -/
theorem dsinit_xlamo_counterexample :
    (dsinit optsC4).irez = 1 ∧
    (dsinit optsC4).xlamo = -2 ∧
    (dsinit optsC4).xlamo ≠
      rfmod ((optsC4.mo + optsC4.nodeo) - dsinitTheta optsC4.gsto optsC4.tc)
        TWO_PI ∧
    ¬ 0 ≤ (dsinit optsC4).xlamo := by
  have h2pi : (3:ℝ) < TWO_PI := by
    rw [TWO_PI, PI]
    nlinarith [Real.pi_gt_three]
  have hxl : (dsinit optsC4).xlamo = -2 := by
    rw [dsinit_xlamo_eq, dsinitIrez_optsC4]
    norm_num
    rw [dsinitTheta_optsC4, show optsC4.mo = (0:ℝ) from rfl,
      show optsC4.nodeo = (0:ℝ) from rfl, show optsC4.argpo = (1:ℝ) from rfl,
      show ((0:ℝ) + 0 + 1) - 3 = -2 by norm_num]
    exact rfmod_of_neg_of_lt (by norm_num) TWO_PI_pos (by linarith)
  refine ⟨?_, hxl, ?_, ?_⟩
  · rw [dsinit_irez_eq]
    exact dsinitIrez_optsC4
  · rw [hxl, dsinitTheta_optsC4, show optsC4.mo = (0:ℝ) from rfl,
      show optsC4.nodeo = (0:ℝ) from rfl,
      show ((0:ℝ) + 0) - 3 = -3 by norm_num,
      rfmod_of_neg_of_lt (by norm_num) TWO_PI_pos (by linarith)]
    norm_num
  · rw [hxl]
    norm_num

theorem dsinit_xlamo_formula_witness :
    (dsinit optsC4).irez = 1 ∧
    (dsinit optsC4).xlamo =
      rfmod ((optsC4.mo + optsC4.nodeo + optsC4.argpo) -
        dsinitTheta optsC4.gsto optsC4.tc) TWO_PI := by
  have h1 : (dsinit optsC4).irez = 1 := by
    rw [dsinit_irez_eq]
    exact dsinitIrez_optsC4
  exact ⟨h1, (dsinit_xlamo_formula optsC4).2.1 h1⟩

/-! ### C5: deper and the epoch baselines -/

/-- An initialization-phase deper call returns the input elements unchanged:
the computed corrections are discarded. -/
theorem deper_init_Y (s : SatRec) (o : DpperOption) (h : o.init = DpperInit.Y) :
    deper s o = ⟨o.ep, o.inclp, o.nodep, o.argpp, o.mp⟩ := by
  rcases hp : deperPerts s o with ⟨pe, pinc, pl, pgh, ph⟩
  rw [deper, hp]
  simp [h]

/-- A propagation-phase deper call applies the baseline-subtracted
corrections to inclp and ep (in both the direct and the Lyddane branch). -/
theorem deper_init_N_applied (s : SatRec) (o : DpperOption)
    (h : o.init = DpperInit.N) :
    (deper s o).inclp = o.inclp + ((deperPerts s o).2.1 - s.pinco) ∧
    (deper s o).ep = o.ep + ((deperPerts s o).1 - s.peo) := by
  rcases hp : deperPerts s o with ⟨pe, pinc, pl, pgh, ph⟩
  rw [deper, hp]
  simp only [h, hp]
  split_ifs <;> exact ⟨rfl, rfl⟩

/-- C5 (amended): deper with init = Y returns the input elements (ep, inclp,
nodep, argpp, mp) unchanged and stores nothing: it borrows the satellite
record immutably and its only output is the element tuple, so the epoch
baselines (peo, pinco, plo, pgho, pho) are not written by dpper (they are
produced by dscom during sgp4init).  With init = N the stored baselines are
subtracted from the corrections, which are then applied to inclp and ep
first. -/
theorem deper_baseline_behavior (s : SatRec) (o : DpperOption) :
    (o.init = DpperInit.Y →
      deper s o = ⟨o.ep, o.inclp, o.nodep, o.argpp, o.mp⟩) ∧
    (o.init = DpperInit.N →
      (deper s o).inclp = o.inclp + ((deperPerts s o).2.1 - s.pinco) ∧
      (deper s o).ep = o.ep + ((deperPerts s o).1 - s.peo)) :=
  ⟨fun h => deper_init_Y s o h, fun h => deper_init_N_applied s o h⟩

/-- A record whose only nonzero series coefficient is se2 = 4, giving a
nonzero solar eccentricity correction at epoch. -/
def recC5 : SatRec := { zeroRec with se2 := 4 }

/-- An initialization-phase (init = Y) deper call at the zero element set. -/
def optC5 : DpperOption :=
  { init := DpperInit.Y, opsmode := DpperOpsMode.I, ep := 0, inclp := 0,
    nodep := 0, argpp := 0, mp := 0 }

theorem deperPerts_recC5 : deperPerts recC5 optC5 = (-1, 0, 0, 0, 0) := by
  rw [deperPerts]
  norm_num [recC5, zeroRec, optC5]

/-- C5 counterexample: on this record the init = Y call computes the
eccentricity correction pe = -1, but deper's output is only the unchanged
element tuple, and the record's baseline peo stays 0, distinct from the
computed correction: the corrections are not stored as the epoch baselines
by dpper. -/
theorem deper_no_store_counterexample :
    recC5.peo = 0 ∧
    (deperPerts recC5 optC5).1 = -1 ∧
    optC5.init = DpperInit.Y ∧
    deper recC5 optC5 =
      { ep := 0, inclp := 0, nodep := 0, argpp := 0, mp := 0 } ∧
    (deperPerts recC5 optC5).1 ≠ recC5.peo := by
  refine ⟨rfl, ?_, rfl, ?_, ?_⟩
  · rw [deperPerts_recC5]
  · rw [deper_init_Y recC5 optC5 rfl]
    rfl
  · rw [deperPerts_recC5, show recC5.peo = (0:ℝ) from rfl]
    norm_num

theorem deper_baseline_behavior_witness :
    deper recC5 optC5 =
      { ep := optC5.ep, inclp := optC5.inclp, nodep := optC5.nodep,
        argpp := optC5.argpp, mp := optC5.mp } :=
  (deper_baseline_behavior recC5 optC5).1 rfl

/-! ### C6: the dspace integration loop -/

theorem dspaceLoop_iterate (o : DspaceOption) :
    ∀ N : ℕ, ∀ st : DsLoopSt, ∀ h : dspaceInv o.t st.atime,
      (⌈|o.t - st.atime| / STEPP⌉).toNat ≤ N →
      ∃ n : ℕ,
        dspaceLoop o st h = dspaceExit o ((dspaceStep o)^[n] st) := by
  have hstep : (0:ℝ) < STEPP := by norm_num [STEPP]
  intro N
  induction N with
  | zero =>
    intro st h hle
    have hnfar : ¬ STEPP ≤ |o.t - st.atime| := by
      intro hfar
      have h1 : (0:ℝ) < |o.t - st.atime| / STEPP :=
        div_pos (lt_of_lt_of_le hstep hfar) hstep
      have h2 : (0:ℤ) < ⌈|o.t - st.atime| / STEPP⌉ := Int.lt_ceil.mpr (by exact_mod_cast h1)
      omega
    refine ⟨0, ?_⟩
    rw [dspaceLoop]
    simp only [dif_neg hnfar]
    rfl
  | succ N ih =>
    intro st h hle
    by_cases hfar : STEPP ≤ |o.t - st.atime|
    · have hlt := dspace_measure_lt h hfar
      have hle' :
          (⌈|o.t - (dspaceStep o st).atime| / STEPP⌉).toNat ≤ N := by
        have he : (dspaceStep o st).atime =
            st.atime + (if o.t > 0 then STEPP else STEPN) := rfl
        rw [he]
        omega
      obtain ⟨n, hn⟩ := ih (dspaceStep o st) (dspaceInv_step h hfar) hle'
      refine ⟨n + 1, ?_⟩
      rw [dspaceLoop]
      simp only [dif_pos hfar]
      rw [Function.iterate_succ_apply]
      exact hn
    · refine ⟨0, ?_⟩
      rw [dspaceLoop]
      simp only [dif_neg hfar]
      rfl

theorem dspaceLoop_ft (o : DspaceOption) :
    ∀ N : ℕ, ∀ st : DsLoopSt, ∀ h : dspaceInv o.t st.atime,
      (⌈|o.t - st.atime| / STEPP⌉).toNat ≤ N →
      (dspaceLoop o st h).ft = o.t - (dspaceLoop o st h).st.atime ∧
      |(dspaceLoop o st h).ft| < STEPP := by
  have hstep : (0:ℝ) < STEPP := by norm_num [STEPP]
  intro N
  induction N with
  | zero =>
    intro st h hle
    have hnfar : ¬ STEPP ≤ |o.t - st.atime| := by
      intro hfar
      have h1 : (0:ℝ) < |o.t - st.atime| / STEPP :=
        div_pos (lt_of_lt_of_le hstep hfar) hstep
      have h2 : (0:ℤ) < ⌈|o.t - st.atime| / STEPP⌉ := Int.lt_ceil.mpr (by exact_mod_cast h1)
      omega
    rw [dspaceLoop]
    simp only [dif_neg hnfar]
    exact ⟨by trivial, not_le.mp hnfar⟩
  | succ N ih =>
    intro st h hle
    by_cases hfar : STEPP ≤ |o.t - st.atime|
    · have hlt := dspace_measure_lt h hfar
      have hle' :
          (⌈|o.t - (dspaceStep o st).atime| / STEPP⌉).toNat ≤ N := by
        have he : (dspaceStep o st).atime =
            st.atime + (if o.t > 0 then STEPP else STEPN) := rfl
        rw [he]
        omega
      rw [dspaceLoop]
      simp only [dif_pos hfar]
      exact ih (dspaceStep o st) (dspaceInv_step h hfar) hle'
    · rw [dspaceLoop]
      simp only [dif_neg hfar]
      exact ⟨by trivial, not_le.mp hfar⟩

/-- C6: whenever atime = 0, or t and atime straddle zero, or t is closer to
zero than atime, the integrator state is reset to (atime = 0, xli = xlamo,
xni = no); the stepping loop terminates after finitely many 720-minute
Euler-Maclaurin steps; and on exit the remainder ft = t - atime satisfies
|ft| < 720, where atime in the returned record (for irez not 0) is the
loop's exit time. -/
theorem dspace_loop_terminates (o : DspaceOption) :
    ((o.atime = 0 ∨ o.t * o.atime ≤ 0 ∨ |o.t| < |o.atime|) →
      dspaceEntry o = ⟨0, o.xlamo, o.no⟩) ∧
    (∃ n : ℕ,
      dspaceLoopRun o = dspaceExit o ((dspaceStep o)^[n] (dspaceEntry o))) ∧
    (dspaceLoopRun o).ft = o.t - (dspaceLoopRun o).st.atime ∧
    |(dspaceLoopRun o).ft| < STEPP ∧
    (o.irez ≠ 0 → (dspace o).atime = (dspaceLoopRun o).st.atime) := by
  refine ⟨fun h => ?_, ?_, ?_, ?_, fun h => ?_⟩
  · rw [dspaceEntry, if_pos h]
  · exact dspaceLoop_iterate o _ (dspaceEntry o) (dspaceEntry_inv o) le_rfl
  · exact (dspaceLoop_ft o _ (dspaceEntry o) (dspaceEntry_inv o) le_rfl).1
  · exact (dspaceLoop_ft o _ (dspaceEntry o) (dspaceEntry_inv o) le_rfl).2
  · rw [dspace]
    split_ifs with h1 h2 <;> first | rfl | exact absurd h h1

/-- A resonance dspace input at the epoch: irez = 1, t = 0, atime = 0. -/
def optsC6 : DspaceOption :=
  { irez := 1, d2201 := 0, d2211 := 0, d3210 := 0, d3222 := 0, d4410 := 0,
    d4422 := 0, d5220 := 0, d5232 := 0, d5421 := 0, d5433 := 0,
    dedt := 0, del1 := 0, del2 := 0, del3 := 0, didt := 0, dmdt := 0,
    dnodt := 0, domdt := 0, argpo := 0, argpdot := 0, t := 0, tc := 0,
    gsto := 0, xfact := 0, xlamo := 2, no := XKE, atime := 0, em := 0,
    argpm := 0, inclm := 0, xli := 0, mm := 0, xni := 0, nodem := 0,
    nm := 0 }

theorem dspace_loop_terminates_witness :
    dspaceEntry optsC6 = ⟨0, optsC6.xlamo, optsC6.no⟩ ∧
    |(dspaceLoopRun optsC6).ft| < STEPP :=
  ⟨(dspace_loop_terminates optsC6).1 (Or.inl rfl),
   (dspace_loop_terminates optsC6).2.2.2.1⟩

/-! ### C7: the un-Kozai of initl and its reference values -/

/-- The Kozai semi-major axis ak = (XKE/no)^(2/3) of initl. -/
def initlAk (o : InitOptions) : ℝ := (XKE / o.no) ^ (X2O3 : ℝ)

/-- The oblateness quantity d1 of initl. -/
def initlD1 (o : InitOptions) : ℝ :=
  (0.75 * J2 * ((3.0 * (Real.cos o.inclo * Real.cos o.inclo)) - 1.0)) /
    (Real.sqrt (1.0 - (o.ecco * o.ecco)) * (1.0 - (o.ecco * o.ecco)))

/-- The first fixed-point iterate del' = d1/ak^2 of initl. -/
def initlDelp (o : InitOptions) : ℝ := initlD1 o / (initlAk o * initlAk o)

/-- The corrected semi-major axis a_del of initl. -/
def initlAdel (o : InitOptions) : ℝ :=
  initlAk o * (1.0 - (initlDelp o * initlDelp o) -
    (initlDelp o * ((1.0 / 3.0) + ((134.0 * initlDelp o * initlDelp o) / 81.0))))

/-- The un-Kozai'd mean motion no/(1 + d1/a_del^2) of initl. -/
def initlNoUnkozai (o : InitOptions) : ℝ :=
  o.no / (1.0 + initlD1 o / (initlAdel o * initlAdel o))

/-- The reference inputs of the legacy sidereal time regression test. -/
def initlOptsC7 : InitOptions :=
  { ecco := 0.1846988, epoch := 25938.538312919904, inclo := 0.0,
    opsmode := DpperOpsMode.A, no := 0.0037028783237264057 }

/-- Sandwich a real 2/3 power between rationals by cubing. -/
theorem rpow23_sandwich {w a b : ℝ} (hw : 0 < w) (ha : 0 ≤ a)
    (h1 : a ^ 3 ≤ w ^ 2) (h2 : w ^ 2 ≤ b ^ 3) :
    a ≤ w ^ (X2O3 : ℝ) ∧ w ^ (X2O3 : ℝ) ≤ b := by
  have hy : 0 ≤ w ^ (X2O3 : ℝ) := Real.rpow_nonneg hw.le _
  have hcube : (w ^ (X2O3 : ℝ)) ^ (3:ℕ) = w ^ (2:ℕ) := by
    rw [← Real.rpow_natCast (w ^ (X2O3 : ℝ)) 3, ← Real.rpow_mul hw.le]
    rw [show (X2O3 * ((3:ℕ):ℝ)) = ((2:ℕ):ℝ) by push_cast; norm_num [X2O3]]
    rw [Real.rpow_natCast]
  have hb : 0 < b := by nlinarith [pow_pos hw 2, sq_nonneg b]
  constructor
  · refine le_of_pow_le_pow_left₀ (n := 3) (by norm_num) hy ?_
    rw [hcube]
    exact h1
  · refine le_of_pow_le_pow_left₀ (n := 3) (by norm_num) hb.le ?_
    rw [hcube]
    exact h2

theorem sqrtC7_bounds :
    (0.982795173613:ℝ) ≤ Real.sqrt 0.96588635327856 ∧
    Real.sqrt 0.96588635327856 ≤ 0.982795173614 :=
  ⟨(Real.le_sqrt (by norm_num) (by norm_num)).mpr (by norm_num),
   Real.sqrt_le_iff.mpr ⟨by norm_num, by norm_num⟩⟩

theorem d1C7_eq :
    initlD1 initlOptsC7 =
      0.001623924 / (Real.sqrt 0.96588635327856 * 0.96588635327856) := by
  rw [initlD1]
  norm_num [initlOptsC7, J2]

theorem d1C7_bounds :
    (0.0017107110284:ℝ) ≤ initlD1 initlOptsC7 ∧
    initlD1 initlOptsC7 ≤ 0.0017107110286 := by
  rw [d1C7_eq]
  have hr := sqrtC7_bounds
  have hrpos : (0:ℝ) < Real.sqrt 0.96588635327856 :=
    lt_of_lt_of_le (by norm_num) hr.1
  constructor
  · rw [le_div_iff (by positivity)]
    nlinarith [hr.2]
  · rw [div_le_iff (by positivity)]
    nlinarith [hr.1]

theorem akC7_bounds :
    (7.388567081556:ℝ) ≤ initlAk initlOptsC7 ∧
    initlAk initlOptsC7 ≤ 7.388567081557 := by
  rw [initlAk, show initlOptsC7.no = (0.0037028783237264057:ℝ) from rfl]
  exact rpow23_sandwich (by norm_num [XKE]) (by norm_num)
    (by norm_num [XKE]) (by norm_num [XKE])

theorem dpC7_bounds :
    (0.0000313369131345:ℝ) ≤ initlDelp initlOptsC7 ∧
    initlDelp initlOptsC7 ≤ 0.0000313369131420 := by
  rw [initlDelp]
  have hak := akC7_bounds
  have hd1 := d1C7_bounds
  have hakpos : (0:ℝ) < initlAk initlOptsC7 :=
    lt_of_lt_of_le (by norm_num) hak.1
  have hsqu : initlAk initlOptsC7 * initlAk initlOptsC7 ≤
      7.388567081557 * 7.388567081557 :=
    mul_le_mul hak.2 hak.2 hakpos.le (by norm_num)
  have hsql : (7.388567081556:ℝ) * 7.388567081556 ≤
      initlAk initlOptsC7 * initlAk initlOptsC7 :=
    mul_le_mul hak.1 hak.1 (by norm_num) hakpos.le
  constructor
  · rw [le_div_iff (by positivity)]
    nlinarith [hsqu, hd1.1]
  · rw [div_le_iff (by positivity)]
    nlinarith [hsql, hd1.2]

theorem uC7_bounds :
    (0.9999895533802:ℝ) ≤
      (1.0 - (initlDelp initlOptsC7 * initlDelp initlOptsC7) -
        (initlDelp initlOptsC7 * ((1.0 / 3.0) +
          ((134.0 * initlDelp initlOptsC7 * initlDelp initlOptsC7) / 81.0)))) ∧
    (1.0 - (initlDelp initlOptsC7 * initlDelp initlOptsC7) -
        (initlDelp initlOptsC7 * ((1.0 / 3.0) +
          ((134.0 * initlDelp initlOptsC7 * initlDelp initlOptsC7) / 81.0)))) ≤
      0.9999895533803 := by
  have hdp := dpC7_bounds
  have h0 : (0:ℝ) ≤ initlDelp initlOptsC7 :=
    le_trans (by norm_num) hdp.1
  have hsqu : initlDelp initlOptsC7 * initlDelp initlOptsC7 ≤
      0.0000313369131420 * 0.0000313369131420 :=
    mul_le_mul hdp.2 hdp.2 h0 (by norm_num)
  have hsql : (0.0000313369131345:ℝ) * 0.0000313369131345 ≤
      initlDelp initlOptsC7 * initlDelp initlOptsC7 :=
    mul_le_mul hdp.1 hdp.1 (by norm_num) h0
  have hcuu : initlDelp initlOptsC7 *
      (initlDelp initlOptsC7 * initlDelp initlOptsC7) ≤
      0.0000313369131420 * (0.0000313369131420 * 0.0000313369131420) :=
    mul_le_mul hdp.2 hsqu (by positivity) (by norm_num)
  have hcul : (0.0000313369131345:ℝ) *
      (0.0000313369131345 * 0.0000313369131345) ≤
      initlDelp initlOptsC7 *
        (initlDelp initlOptsC7 * initlDelp initlOptsC7) :=
    mul_le_mul hdp.1 hsql (by norm_num) h0
  constructor <;> nlinarith [hsqu, hsql, hcuu, hcul, hdp.1, hdp.2]

theorem adelC7_bounds :
    (7.3884898960048:ℝ) ≤ initlAdel initlOptsC7 ∧
    initlAdel initlOptsC7 ≤ 7.3884898960066 := by
  rw [initlAdel]
  have hak := akC7_bounds
  have hu := uC7_bounds
  have hakpos : (0:ℝ) < initlAk initlOptsC7 :=
    lt_of_lt_of_le (by norm_num) hak.1
  constructor
  · nlinarith [mul_nonneg (sub_nonneg.mpr hak.1) (sub_nonneg.mpr hu.1),
      hak.1, hu.1]
  · nlinarith [mul_nonneg (sub_nonneg.mpr hak.2) (sub_nonneg.mpr hu.2),
      hak.2, hu.2]

theorem d2C7_bounds :
    (0.0000313375678380:ℝ) ≤
      initlD1 initlOptsC7 / (initlAdel initlOptsC7 * initlAdel initlOptsC7) ∧
    initlD1 initlOptsC7 / (initlAdel initlOptsC7 * initlAdel initlOptsC7) ≤
      0.0000313375678850 := by
  have had := adelC7_bounds
  have hd1 := d1C7_bounds
  have hadpos : (0:ℝ) < initlAdel initlOptsC7 :=
    lt_of_lt_of_le (by norm_num) had.1
  have hsqu : initlAdel initlOptsC7 * initlAdel initlOptsC7 ≤
      7.3884898960066 * 7.3884898960066 :=
    mul_le_mul had.2 had.2 hadpos.le (by norm_num)
  have hsql : (7.3884898960048:ℝ) * 7.3884898960048 ≤
      initlAdel initlOptsC7 * initlAdel initlOptsC7 :=
    mul_le_mul had.1 had.1 (by norm_num) hadpos.le
  constructor
  · rw [le_div_iff (by positivity)]
    nlinarith [hsqu, hd1.1]
  · rw [div_le_iff (by positivity)]
    nlinarith [hsql, hd1.2]

theorem wC7_bounds :
    (20.0841723950061:ℝ) ≤ XKE / initlNoUnkozai initlOptsC7 ∧
    XKE / initlNoUnkozai initlOptsC7 ≤ 20.0841723950072 := by
  rw [initlNoUnkozai, div_div_eq_mul_div,
    show initlOptsC7.no = (0.0037028783237264057:ℝ) from rfl]
  have hd2 := d2C7_bounds
  simp only [XKE]
  constructor
  · rw [le_div_iff (by norm_num)]
    nlinarith [hd2.1]
  · rw [div_le_iff (by norm_num)]
    nlinarith [hd2.2]

theorem aoC7_bounds :
    (7.38872144040:ℝ) ≤ (initl initlOptsC7).ao ∧
    (initl initlOptsC7).ao ≤ 7.38872144070 := by
  have hproj : (initl initlOptsC7).ao =
      (XKE / initlNoUnkozai initlOptsC7) ^ (X2O3 : ℝ) := rfl
  rw [hproj]
  have hw := wC7_bounds
  have hwpos : (0:ℝ) < XKE / initlNoUnkozai initlOptsC7 :=
    lt_of_lt_of_le (by norm_num) hw.1
  exact rpow23_sandwich hwpos (by norm_num)
    (by nlinarith [hw.1]) (by nlinarith [hw.2])

/-- When y*k ≤ x < y*(k+1) for a nonnegative integer k, the Rust remainder
x % y is x - y*k. -/
theorem rfmod_eq_sub (x y : ℝ) (hy : 0 < y) (k : ℤ) (hk : 0 ≤ k)
    (h1 : y * (k:ℝ) ≤ x) (h2 : x < y * ((k:ℝ) + 1)) :
    rfmod x y = x - y * (k:ℝ) := by
  have hq1 : (k:ℝ) ≤ x / y := (le_div_iff hy).mpr (by nlinarith)
  have hq2 : x / y < (k:ℝ) + 1 := (div_lt_iff hy).mpr (by nlinarith)
  have h0 : (0:ℝ) ≤ x / y := le_trans (by exact_mod_cast hk) hq1
  have hf : ⌊x / y⌋ = k := Int.floor_eq_iff.mpr ⟨hq1, by push_cast; linarith⟩
  rw [rfmod, rtrunc, if_pos h0, hf]

/-- The sidereal-time normalization of initl: reduce modulo two pi (with 51
whole turns) and skip the negative-branch correction. -/
theorem gsto_abs_bound {x : ℝ} (h1 : TWO_PI * ((51:ℤ):ℝ) ≤ x)
    (h2 : x < TWO_PI * (((51:ℤ):ℝ) + 1))
    (h3 : |x - TWO_PI * ((51:ℤ):ℝ) - 5.220883| ≤ 1e-6 * 5.220883) :
    |(if rfmod x TWO_PI < 0 then rfmod x TWO_PI + TWO_PI
      else rfmod x TWO_PI) - 5.220883| ≤ 1e-6 * 5.220883 := by
  rw [rfmod_eq_sub x TWO_PI TWO_PI_pos 51 (by norm_num) h1 h2,
    if_neg (not_lt.mpr (by linarith))]
  exact h3

theorem gstoC7_bounds :
    |(initl initlOptsC7).gsto - 5.220883| ≤ 1e-6 * 5.220883 := by
  have hfloor :
      (⌊(25938.538312919904:ℝ) - 7305.0 + 1.0e-8⌋ : ℤ) = 18633 := by
    rw [Int.floor_eq_iff]
    constructor <;> norm_num
  have hproj : (initl initlOptsC7).gsto =
      (let ts70 := (25938.538312919904:ℝ) - 7305.0
       let ds70 := ((⌊ts70 + 1.0e-8⌋ : ℤ) : ℝ)
       let tfrac := ts70 - ds70
       let c1 := (1.72027916940703639e-2:ℝ)
       let thgr70 := (1.7321343856509374:ℝ)
       let fk5r := (5.07551419432269442e-15:ℝ)
       let c1p2p := c1 + TWO_PI
       let gsto := rfmod (thgr70 + (c1 * ds70) + (c1p2p * tfrac) +
         (ts70 * ts70 * fk5r)) TWO_PI
       if gsto < 0 then gsto + TWO_PI else gsto) := rfl
  rw [hproj]
  dsimp only
  rw [hfloor]
  apply gsto_abs_bound
  · rw [TWO_PI, PI]
    push_cast
    nlinarith [Real.pi_gt_d20, Real.pi_lt_d20]
  · rw [TWO_PI, PI]
    push_cast
    nlinarith [Real.pi_gt_d20, Real.pi_lt_d20]
  · rw [TWO_PI, PI, abs_le]
    push_cast
    constructor <;> nlinarith [Real.pi_gt_d20, Real.pi_lt_d20]

/-! ### C8: the xlcof divisor floor -/

/-- C8 (amended): the divisor of xlcof is never zero and always has
magnitude at least 1.5e-12; when |cos i + 1| is at most 1.5e-12 it is the
floor temp4 = 1.5e-12 itself (so the magnitude bound is attained, not
strictly exceeded), and otherwise it is 1 + cos i. -/
theorem xlcofDivisor_floor (c : ℝ) :
    xlcofDivisor c ≠ 0 ∧
    1.5e-12 ≤ |xlcofDivisor c| ∧
    (|c + 1.0| ≤ 1.5e-12 → xlcofDivisor c = 1.5e-12) ∧
    (|c + 1.0| > 1.5e-12 → xlcofDivisor c = 1.0 + c) := by
  rw [xlcofDivisor]
  split_ifs with h
  · refine ⟨?_, ?_, fun hle => absurd h (not_lt.mpr hle), fun _ => rfl⟩
    · intro h0
      rw [show c + 1.0 = 0 by linarith] at h
      norm_num at h
    · rw [show (1.0:ℝ) + c = c + 1.0 by ring]
      exact le_of_lt h
  · refine ⟨by norm_num, by rw [abs_of_pos (by norm_num)], fun _ => rfl,
      fun hgt => absurd hgt h⟩

/-- C8 counterexample: at cos i = cos pi = -1 (a retrograde equatorial
orbit, i.e. an inclination exactly at 180 degrees, within the claim's
scope) the xlcof divisor is exactly 1.5e-12: the computation does divide by
a quantity of magnitude at (though never below) 1.5e-12, contradicting the
claim's "never ... at or below". -/
theorem xlcofDivisor_at_retrograde :
    xlcofDivisor (Real.cos PI) = 1.5e-12 ∧
    ¬ 1.5e-12 < |xlcofDivisor (Real.cos PI)| := by
  have hc : Real.cos PI = -1 := by
    rw [PI]
    exact Real.cos_pi
  rw [hc, xlcofDivisor]
  norm_num
  rw [abs_of_pos (by norm_num)]

theorem xlcofDivisor_floor_witness :
    xlcofDivisor (-1) = 1.5e-12 ∧ xlcofDivisor (-1) ≠ 0 :=
  ⟨(xlcofDivisor_floor (-1)).2.2.1 (by norm_num),
   (xlcofDivisor_floor (-1)).1⟩

/-! ### C10: the sgp4init zeroing block and xgh4 -/

theorem sgp4initS3_no (s2 : SatRec) (ir : InitlResult) (i : ℕ)
    (sf q : ℝ) : (sgp4initS3 s2 ir i sf q).no = s2.no := rfl

set_option maxHeartbeats 2000000 in
/-- Any observation of the satellite record that is blind to each record
update performed by a near-Earth sgp4init run (the final init flag, the
fields the priming sgp4 call writes, the near-Earth coefficient block, the
drag block, the element assignment and the initl-derived assignment) sees
sgp4init as the zeroing block alone. -/
theorem sgp4init_ds_passthrough {α : Type} (s : SatRec)
    (o : Sgp4InitOptions)
    (h : ¬ ((2.0 * PI) /
      (initl
        { ecco := o.xecco, epoch := o.epoch, inclo := o.xinclo,
          opsmode := o.opsmode, no := o.xno }).no ≥ 225.0))
    (f : SatRec → α)
    (hinit : ∀ r : SatRec, f { r with init := DpperInit.N } = f r)
    (hfr : ∀ (r : SatRec) (tv a x c m1 m7 : ℝ) (e : ℕ),
      f { r with t := tv, error := e, aycof := a, xlcof := x, con41 := c,
                 x1mth2 := m1, x7thm1 := m7 } = f r)
    (hS3 : ∀ (r : SatRec) (ir : InitlResult) (i : ℕ) (sf q : ℝ),
      f (sgp4initS3 r ir i sf q) = f r)
    (hD2 : ∀ (r : SatRec) (a t sf : ℝ), f (sgp4initD2 r a t sf) = f r)
    (hs12 : ∀ (r : SatRec) (b e ar i m n nd tv c g av alv alp : ℝ)
      (om : DpperOpsMode) (ini : DpperInit) (ev : ℕ),
      f { r with bstar := b, ecco := e, argpo := ar, inclo := i, mo := m,
                 no := n, nodeo := nd, operationmode := om, init := ini,
                 t := tv, con41 := c, gsto := g, a := av, alta := alv,
                 altp := alp, error := ev } = f r) :
    f (sgp4init s o) = f (sgp4initZeroed s) := by
  simp only [sgp4init, sgp4initBig, sgp4initS3_no, hinit]
  rw [sgp4_fst_eq]
  simp only [hfr]
  split_ifs
  all_goals first
    | exact absurd (by assumption) h
    | simp only [hD2, hS3, hs12]

set_option maxHeartbeats 2000000 in
/-- C10: the zeroing block of sgp4init assigns xgh3 twice and never xgh4,
so for a near-Earth satellite (un-Kozai period below 225 minutes: the
deep-space branch that would overwrite xgh4 from dscom never runs) a
pre-existing xgh4 value survives sgp4init unchanged, while every other
deep-space coefficient of the record is reset to zero (gsto alone is then
overwritten with the sidereal time from initl). -/
theorem sgp4init_zeroing_xgh4 (s : SatRec) (o : Sgp4InitOptions)
    (h : ¬ ((2.0 * PI) /
      (initl
        { ecco := o.xecco, epoch := o.epoch, inclo := o.xinclo,
          opsmode := o.opsmode, no := o.xno }).no ≥ 225.0)) :
    (sgp4init s o).xgh4 = s.xgh4 ∧
    (sgp4init s o).irez = 0 ∧
    (sgp4init s o).d2201 = 0 ∧
    (sgp4init s o).d2211 = 0 ∧
    (sgp4init s o).d3210 = 0 ∧
    (sgp4init s o).d3222 = 0 ∧
    (sgp4init s o).d4410 = 0 ∧
    (sgp4init s o).d4422 = 0 ∧
    (sgp4init s o).d5220 = 0 ∧
    (sgp4init s o).d5232 = 0 ∧
    (sgp4init s o).d5421 = 0 ∧
    (sgp4init s o).d5433 = 0 ∧
    (sgp4init s o).dedt = 0 ∧
    (sgp4init s o).del1 = 0 ∧
    (sgp4init s o).del2 = 0 ∧
    (sgp4init s o).del3 = 0 ∧
    (sgp4init s o).didt = 0 ∧
    (sgp4init s o).dmdt = 0 ∧
    (sgp4init s o).dnodt = 0 ∧
    (sgp4init s o).domdt = 0 ∧
    (sgp4init s o).e3 = 0 ∧
    (sgp4init s o).ee2 = 0 ∧
    (sgp4init s o).peo = 0 ∧
    (sgp4init s o).pgho = 0 ∧
    (sgp4init s o).pho = 0 ∧
    (sgp4init s o).pinco = 0 ∧
    (sgp4init s o).plo = 0 ∧
    (sgp4init s o).se2 = 0 ∧
    (sgp4init s o).se3 = 0 ∧
    (sgp4init s o).sgh2 = 0 ∧
    (sgp4init s o).sgh3 = 0 ∧
    (sgp4init s o).sgh4 = 0 ∧
    (sgp4init s o).sh2 = 0 ∧
    (sgp4init s o).sh3 = 0 ∧
    (sgp4init s o).si2 = 0 ∧
    (sgp4init s o).si3 = 0 ∧
    (sgp4init s o).sl2 = 0 ∧
    (sgp4init s o).sl3 = 0 ∧
    (sgp4init s o).sl4 = 0 ∧
    (sgp4init s o).xfact = 0 ∧
    (sgp4init s o).xgh2 = 0 ∧
    (sgp4init s o).xgh3 = 0 ∧
    (sgp4init s o).xh2 = 0 ∧
    (sgp4init s o).xh3 = 0 ∧
    (sgp4init s o).xi2 = 0 ∧
    (sgp4init s o).xi3 = 0 ∧
    (sgp4init s o).xl2 = 0 ∧
    (sgp4init s o).xl3 = 0 ∧
    (sgp4init s o).xl4 = 0 ∧
    (sgp4init s o).xlamo = 0 ∧
    (sgp4init s o).zmol = 0 ∧
    (sgp4init s o).zmos = 0 ∧
    (sgp4init s o).atime = 0 ∧
    (sgp4init s o).xli = 0 ∧
    (sgp4init s o).xni = 0 := by
  refine ⟨?_, ?_, ?_, ?_, ?_, ?_, ?_, ?_, ?_, ?_, ?_, ?_, ?_, ?_, ?_, ?_, ?_, ?_, ?_, ?_, ?_, ?_, ?_, ?_, ?_, ?_, ?_, ?_, ?_, ?_, ?_, ?_, ?_, ?_, ?_, ?_, ?_, ?_, ?_, ?_, ?_, ?_, ?_, ?_, ?_, ?_, ?_, ?_, ?_, ?_, ?_, ?_, ?_, ?_, ?_⟩
  all_goals
    exact sgp4init_ds_passthrough s o h _ (fun _ => rfl)
      (fun _ _ _ _ _ _ _ _ => rfl) (fun _ _ _ _ _ => rfl)
      (fun _ _ _ _ => rfl)
      (fun _ _ _ _ _ _ _ _ _ _ _ _ _ _ _ _ _ => rfl)

/-- Initialization inputs of a fast near-Earth satellite (one radian per
minute before un-Kozai). -/
def optsC10 : Sgp4InitOptions :=
  { opsmode := DpperOpsMode.I, satn := 0, epoch := 0, xbstar := 0,
    xecco := 0, xargpo := 0, xinclo := 0, xmo := 0, xno := 1.0,
    xnodeo := 0 }

/-- The corresponding initl inputs. -/
def initlOptsC10 : InitOptions :=
  { ecco := 0, epoch := 0, inclo := 0, opsmode := DpperOpsMode.I, no := 1.0 }

/-- A record with a pre-existing nonzero xgh4. -/
def recC10 : SatRec := { zeroRec with xgh4 := 7 }

theorem initlOptsC10_period :
    (2.0 * PI) / (initl initlOptsC10).no < 225.0 := by
  have hd1 : initlD1 initlOptsC10 = 0.001623924 := by
    rw [initlD1]
    norm_num [initlOptsC10, J2, Real.sqrt_one]
  have hak : (0.17:ℝ) ≤ initlAk initlOptsC10 ∧ initlAk initlOptsC10 ≤ 0.18 := by
    rw [initlAk, show initlOptsC10.no = (1.0:ℝ) from rfl]
    exact rpow23_sandwich (by norm_num [XKE]) (by norm_num)
      (by norm_num [XKE]) (by norm_num [XKE])
  have hdp : (0:ℝ) ≤ initlDelp initlOptsC10 ∧ initlDelp initlOptsC10 ≤ 0.057 := by
    rw [initlDelp, hd1]
    have hakpos : (0:ℝ) < initlAk initlOptsC10 :=
      lt_of_lt_of_le (by norm_num) hak.1
    constructor
    · positivity
    · rw [div_le_iff (by positivity)]
      nlinarith [hak.1, hak.2]
  have hadel : (0.164:ℝ) ≤ initlAdel initlOptsC10 := by
    rw [initlAdel]
    nlinarith [hak.1, hak.2, hdp.1, hdp.2,
      mul_nonneg hdp.1 hdp.1, mul_nonneg (mul_nonneg hdp.1 hdp.1) hdp.1]
  have hd2 : initlD1 initlOptsC10 /
      (initlAdel initlOptsC10 * initlAdel initlOptsC10) ≤ 0.061 ∧
      (0:ℝ) ≤ initlD1 initlOptsC10 /
        (initlAdel initlOptsC10 * initlAdel initlOptsC10) := by
    have hpos : (0:ℝ) < initlAdel initlOptsC10 :=
      lt_of_lt_of_le (by norm_num) hadel
    constructor
    · rw [div_le_iff (by positivity)]
      nlinarith [hadel, hd1]
    · rw [hd1]
      positivity
  have hno : (initl initlOptsC10).no =
      1.0 / (1.0 + initlD1 initlOptsC10 /
        (initlAdel initlOptsC10 * initlAdel initlOptsC10)) := rfl
  rw [hno, div_div_eq_mul_div]
  rw [div_lt_iff (by norm_num)]
  nlinarith [Real.pi_lt_315, Real.pi_pos, hd2.1, hd2.2,
    show PI < 3.15 by rw [PI]; exact Real.pi_lt_315]

theorem sgp4init_zeroing_xgh4_witness :
    recC10.xgh4 = 7 ∧
    (sgp4init recC10 optsC10).xgh4 = recC10.xgh4 ∧
    (sgp4init recC10 optsC10).irez = 0 := by
  have h : ¬ ((2.0 * PI) /
      (initl
        { ecco := optsC10.xecco, epoch := optsC10.epoch,
          inclo := optsC10.xinclo, opsmode := optsC10.opsmode,
          no := optsC10.xno }).no ≥ 225.0) :=
    not_le.mpr initlOptsC10_period
  have hmain := sgp4init_zeroing_xgh4 recC10 optsC10 h
  exact ⟨rfl, hmain.1, hmain.2.1⟩

/-! ### C9: replay after resetting atime -/

/-- A record differing from s only in the fields a propagation call
overwrites, with atime reset to zero. -/
@[reducible] def sgp4ReplayRec (s : SatRec) (tv av xv cv mv sv : ℝ) (ev : ℕ) : SatRec :=
  { s with
    t := tv, error := ev, aycof := av, xlcof := xv,
    con41 := cv, x1mth2 := mv, x7thm1 := sv, atime := 0 }

/-- The second component of sgp4 does not read the record fields t, error,
aycof, xlcof, con41, x1mth2, x7thm1 when the method is deep-space (they are
either overwritten before use or recomputed from the perturbed
inclination), nor atime when it is zero on both sides. -/
theorem sgp4_snd_insensitive (s : SatRec) (ts tv av xv cv mv sv : ℝ)
    (ev : ℕ) (hd : s.method = 'd') (ha : s.atime = 0) :
    (sgp4 (sgp4ReplayRec s tv av xv cv mv sv ev) ts).2 =
    (sgp4 s ts).2 := by
  have hsec : sgp4Sec (sgp4ReplayRec s tv av xv cv mv sv ev) ts =
      sgp4Sec s ts := by
    simp only [sgp4Sec]
    rw [ha]
  have ham : sgp4Am (sgp4ReplayRec s tv av xv cv mv sv ev) ts =
      sgp4Am s ts := by
    simp only [sgp4Am, hsec]
  have hnm : sgp4Nm (sgp4ReplayRec s tv av xv cv mv sv ev) ts =
      sgp4Nm s ts := by
    simp only [sgp4Nm, hsec, ham]
  have hem : sgp4Em (sgp4ReplayRec s tv av xv cv mv sv ev) ts =
      sgp4Em s ts := by
    simp only [sgp4Em, hsec, ham, hnm]
  have hclamp : sgp4EmClamped (sgp4ReplayRec s tv av xv cv mv sv ev) ts =
      sgp4EmClamped s ts := by
    simp only [sgp4EmClamped, hem]
  have hangles : sgp4Angles (sgp4ReplayRec s tv av xv cv mv sv ev) ts =
      sgp4Angles s ts := by
    simp only [sgp4Angles, hsec]
  have hdp : ∀ o : DpperOption,
      deperPerts { sgp4ReplayRec s tv av xv cv mv sv ev with t := ts, error := 0 } o =
      deperPerts { s with t := ts, error := 0 } o := fun o => by
    simp only [deperPerts]
  have hdeper : ∀ o : DpperOption,
      deper { sgp4ReplayRec s tv av xv cv mv sv ev with t := ts, error := 0 } o =
      deper { s with t := ts, error := 0 } o := fun o => by
    rcases hp : deperPerts { s with t := ts, error := 0 } o with
      ⟨pe, pinc, pl, pgh, ph⟩
    rw [deper, deper, hdp o, hp]
  have hpert : sgp4Pert (sgp4ReplayRec s tv av xv cv mv sv ev) ts =
      sgp4Pert s ts := by
    simp only [sgp4Pert, hangles, hclamp, hsec, hdeper]
  have hsin : sgp4Sinip (sgp4ReplayRec s tv av xv cv mv sv ev) ts =
      sgp4Sinip s ts := by
    simp only [sgp4Sinip, hpert]
  have hcos : sgp4Cosip (sgp4ReplayRec s tv av xv cv mv sv ev) ts =
      sgp4Cosip s ts := by
    simp only [sgp4Cosip, hpert]
  have hay : sgp4Aycof (sgp4ReplayRec s tv av xv cv mv sv ev) ts =
      sgp4Aycof s ts := by
    simp only [sgp4Aycof, hsin]
    rw [if_pos hd, if_pos hd]
  have hxl : sgp4Xlcof (sgp4ReplayRec s tv av xv cv mv sv ev) ts =
      sgp4Xlcof s ts := by
    simp only [sgp4Xlcof, hsin, hcos]
    rw [if_pos hd, if_pos hd]
  have haxnl : sgp4AxnlAynlXl (sgp4ReplayRec s tv av xv cv mv sv ev) ts =
      sgp4AxnlAynlXl s ts := by
    simp only [sgp4AxnlAynlXl, hpert, ham, hay, hxl]
  have hkep : sgp4Kepler (sgp4ReplayRec s tv av xv cv mv sv ev) ts =
      sgp4Kepler s ts := by
    simp only [sgp4Kepler, haxnl, hpert]
  have hpl : sgp4Pl (sgp4ReplayRec s tv av xv cv mv sv ev) ts =
      sgp4Pl s ts := by
    simp only [sgp4Pl, haxnl, ham]
  have hcon : sgp4Con41U (sgp4ReplayRec s tv av xv cv mv sv ev) ts =
      sgp4Con41U s ts := by
    simp only [sgp4Con41U, hcos]
    rw [if_pos hd, if_pos hd]
  have hx1 : sgp4X1mth2U (sgp4ReplayRec s tv av xv cv mv sv ev) ts =
      sgp4X1mth2U s ts := by
    simp only [sgp4X1mth2U, hcos]
    rw [if_pos hd, if_pos hd]
  have hx7 : sgp4X7thm1U (sgp4ReplayRec s tv av xv cv mv sv ev) ts =
      sgp4X7thm1U s ts := by
    simp only [sgp4X7thm1U, hcos]
    rw [if_pos hd, if_pos hd]
  have hmrt : sgp4Mrt (sgp4ReplayRec s tv av xv cv mv sv ev) ts =
      sgp4Mrt s ts := by
    simp only [sgp4Mrt, ham, haxnl, hkep, hpl, hcon, hx1]
  have hvec : sgp4Vectors (sgp4ReplayRec s tv av xv cv mv sv ev) ts =
      sgp4Vectors s ts := by
    simp only [sgp4Vectors, ham, hnm, hpert, hsin, hcos, haxnl, hkep, hpl,
      hmrt, hx7, hx1, hcon]
  simp only [sgp4, hsec, hem, hpert, hpl, hmrt, hd, hvec,
    apply_ite (@Prod.snd SatRec (Except Sgp4Error Sgp4Result))]

set_option maxHeartbeats 1000000 in
/-- C9: for a deep-space record whose integrator epoch atime is 0 (as every
record coming out of sgp4init is, and as sgp4 keeps it, since it never
writes atime back), propagating to t, resetting atime to 0 and propagating
to the same t again returns exactly the same output - the same position and
velocity vectors (in particular within 1e-10 km) or the same error. -/
theorem sgp4_replay (s : SatRec) (ts : ℝ) (hd : s.method = 'd')
    (ha : s.atime = 0) :
    (sgp4 { (sgp4 s ts).1 with atime := 0 } ts).2 = (sgp4 s ts).2 := by
  rw [sgp4_fst_eq s ts]
  exact sgp4_snd_insensitive s ts ts ((sgp4 s ts).1.aycof)
    ((sgp4 s ts).1.xlcof) ((sgp4 s ts).1.con41) ((sgp4 s ts).1.x1mth2)
    ((sgp4 s ts).1.x7thm1) ((sgp4 s ts).1.error) hd ha

def recC9 : SatRec := { recC1 with atime := 0 }

theorem sgp4_replay_witness :
    (sgp4 { (sgp4 recC9 0).1 with atime := 0 } 0).2 = (sgp4 recC9 0).2 :=
  sgp4_replay recC9 0 rfl rfl

/-- C7: initl un-Kozais the mean motion by exactly the claimed two
fixed-point steps (with ak, d1, a_del as in the source), and on the
reference inputs (ecco 0.1846988, epoch 25938.538312919904, inclo 0,
no 0.0037028783237264057, opsmode A) the outputs ao, gsto and rp match the
reference values 7.388717, 5.220883 and 6.024030 to relative accuracy
1e-6. -/
theorem initl_unkozai_regression :
    (∀ o : InitOptions,
      (initl o).no = o.no / (1.0 + initlD1 o / (initlAdel o * initlAdel o)) ∧
      (initl o).ao = (XKE / (initl o).no) ^ (X2O3 : ℝ) ∧
      (initl o).rp = (initl o).ao * (1.0 - o.ecco)) ∧
    |(initl initlOptsC7).ao - 7.388717| ≤ 1e-6 * 7.388717 ∧
    |(initl initlOptsC7).gsto - 5.220883| ≤ 1e-6 * 5.220883 ∧
    |(initl initlOptsC7).rp - 6.024030| ≤ 1e-6 * 6.024030 := by
  refine ⟨fun o => ⟨rfl, rfl, rfl⟩, ?_, gstoC7_bounds, ?_⟩
  · have hao := aoC7_bounds
    rw [abs_le]
    constructor <;> linarith [hao.1, hao.2]
  · have hao := aoC7_bounds
    have hproj : (initl initlOptsC7).rp =
        (initl initlOptsC7).ao * (1.0 - initlOptsC7.ecco) := rfl
    rw [hproj, show initlOptsC7.ecco = (0.1846988:ℝ) from rfl, abs_le]
    constructor <;> nlinarith [hao.1, hao.2]

end

end Satellite
